import Mathlib

/-!
# OpenCSG: render dispatcher and per-context resource cache

A shallow embedding of `src/opencsgRender.cpp` and `src/context.cpp`.

The C++ code works on process-wide mutable state (`gContext`,
`gContextDataMap`) and talks to external collaborators (the OpenGL driver,
the two CSG renderers, the convexity analysis, the heap allocator).  Here the
mutable state is an explicit `State` value passed through every function, and
every call that leaves the embedded code is appended to `State.trace`, so that
"which native call was issued" is an observable of the model.  What the
external collaborators answer is taken from an environment `Env`, over which
the theorems quantify.
-/

namespace OpenCSG

/-- A `Primitive*`: the address of a primitive owned by the caller. -/
abbrev Primitive := Nat

/-- An OpenGL object name (`GLuint`). -/
abbrev GLuint := Nat

/-- An OpenGL enumerant (`GLenum`), such as a shader stage or program target. -/
abbrev GLenum := Nat

/-- The address of a heap object; `0` is the null pointer. -/
abbrev Ptr := Nat

/-- Modelled from the spec: the enum `Algorithm` is declared in `opencsg.h`,
which is not among the sources.  The three named values are the ones the
dispatcher compares against; `other` stands for every remaining value the
C++ enum can hold (for instance after the cast in `render`). -/
inductive Algorithm where
  | Automatic
  | Goldfeather
  | SCS
  | other (code : Int)
  deriving DecidableEq, Repr

/-- Modelled from the spec: the enum `DepthComplexityAlgorithm` is declared in
`opencsg.h`, which is not among the sources.  `other` stands for every value
of the C++ enum that is none of the four named ones. -/
inductive DepthComplexityAlgorithm where
  | NoDepthComplexitySampling
  | OcclusionQuery
  | DepthComplexitySampling
  | DepthComplexityAlgorithmUnused
  | other (code : Int)
  deriving DecidableEq, Repr

/-- Modelled from the spec: the enum `OffscreenType` is declared in
`opencsg.h`, which is not among the sources.  Only the two frame buffer
object kinds are compared against in `context.cpp`; `other` stands for every
remaining value. -/
inductive OffscreenType where
  | FrameBufferObjectARB
  | FrameBufferObjectEXT
  | other (code : Int)
  deriving DecidableEq, Repr

/-- The two extension names `haveHardwareOcclusionQueries` asks for. -/
inductive GLExtension where
  | ARB_occlusion_query
  | NV_occlusion_query
  deriving DecidableEq, Repr

/-- A `const char*` handed to the shader cache: the pointer value `addr`,
which is all that `std::map<const char*, GLuint>` compares, and the bytes it
points to, which is what the driver reads. -/
structure CStr where
  addr : Nat
  text : List Nat
  deriving DecidableEq, Repr

/-- One call that leaves the embedded code.  Values written by the callee
(a generated object name, a status flag, a freshly allocated address) are
recorded with the call. -/
inductive Event where
  | hasGLExtension (ext : GLExtension)
  | renderGoldfeather (primitives : List Primitive) (d : DepthComplexityAlgorithm)
  | renderSCS (primitives : List Primitive) (d : DepthComplexityAlgorithm)
  | newFrameBufferObject (p : Ptr)
  | newFrameBufferObjectExt (p : Ptr)
  | deleteFrameBufferObject (p : Ptr)
  | deleteFrameBufferObjectExt (p : Ptr)
  | glGenProgramsARB (id : GLuint)
  | glBindProgramARB (target : GLenum) (id : GLuint)
  | glProgramStringARB (target : GLenum) (len : Int) (prog : CStr)
  | glCreateShader (target : GLenum) (id : GLuint)
  | glShaderSource (id : GLuint) (prog : CStr)
  | glCompileShader (id : GLuint)
  | glGetShaderiv (id : GLuint) (success : Bool)
  | glGetShaderInfoLog (id : GLuint)
  | cerrCompilationFailed (target : GLenum) (infoLog : List Nat)
  | glCreateProgram (id : GLuint)
  | glAttachShader (program : GLuint) (shader : GLuint)
  | glLinkProgram (id : GLuint)
  | glGetProgramiv (id : GLuint) (success : Bool)
  | glGetProgramInfoLog (id : GLuint)
  | cerrLinkFailed (infoLog : List Nat)
  | glDeleteProgramsARB (id : GLuint)
  deriving DecidableEq, Repr

/-- The external collaborators.  The driver and the allocator may answer
differently from call to call, so their answers are functions of what has
happened so far. -/
structure Env where
  /-- The value of `hasGLExtension(ext)` for the bound native context. -/
  hasGLExtension : GLExtension → Bool
  /-- The external convexity analysis `Algo::getConvexity`. -/
  getConvexity : List Primitive → Nat
  /-- The address `operator new` returns, given the live objects. -/
  operatorNew : List Ptr → Ptr
  /-- The name `glGenProgramsARB` writes. -/
  glGenProgramsARB : List Event → GLuint
  /-- The name `glCreateShader` returns. -/
  glCreateShader : List Event → GLenum → GLuint
  /-- The name `glCreateProgram` returns. -/
  glCreateProgram : List Event → GLuint
  /-- Whether `glGetShaderiv(id, GL_COMPILE_STATUS)` reports `GL_TRUE`. -/
  compileStatus : List Event → GLuint → Bool
  /-- Whether `glGetProgramiv(id, GL_LINK_STATUS)` reports `GL_TRUE`. -/
  linkStatus : List Event → GLuint → Bool
  /-- The text the driver writes into `infoLog`. -/
  infoLog : List Event → GLuint → List Nat

/-- The record `struct ContextData` of `context.cpp`; the two maps are kept
as association lists. -/
structure ContextData where
  fARB : Ptr
  fEXT : Ptr
  idFP : List (Nat × GLuint)
  idShaderProg : List ((GLuint × GLuint) × GLuint)
  deriving DecidableEq, Repr

/-- The process-wide state: the two statics of `context.cpp`, the live heap
objects created by `new`, and the calls issued so far, oldest first. -/
structure State where
  gContext : Int
  gContextDataMap : List (Int × ContextData)
  heap : List Ptr
  trace : List Event
  deriving DecidableEq, Repr

/-- Record one outgoing call. -/
def State.emit (s : State) (e : Event) : State :=
  { s with trace := s.trace ++ [e] }

/-! ## opencsgRender.cpp -/

/-- The macro `hasGLExtension(ext)` of `openglHelper.h`. -/
def hasGLExtension (env : Env) (ext : GLExtension) (s : State) : Bool × State :=
  (env.hasGLExtension ext, s.emit (.hasGLExtension ext))

/-- `haveHardwareOcclusionQueries`: `||` evaluates its right operand only when
the left one is false. -/
def haveHardwareOcclusionQueries (env : Env) (s : State) : Bool × State :=
  let r := hasGLExtension env .ARB_occlusion_query s
  if r.1 then (true, r.2) else hasGLExtension env .NV_occlusion_query r.2

/-- `chooseAlgorithm`. -/
def chooseAlgorithm (env : Env) (primitives : List Primitive) : Algorithm :=
  if env.getConvexity primitives ≥ 2 then .Goldfeather else .SCS

/-- `chooseDepthComplexityAlgorithm`: the capability is probed before each
size comparison, as `&&` evaluates left to right. -/
def chooseDepthComplexityAlgorithm (env : Env) (primitives : List Primitive) (s : State) :
    DepthComplexityAlgorithm × State :=
  let r1 := haveHardwareOcclusionQueries env s
  if !r1.1 && primitives.length > 40 then (.DepthComplexitySampling, r1.2)
  else
    let r2 := haveHardwareOcclusionQueries env r1.2
    if r2.1 && primitives.length > 20 then (.OcclusionQuery, r2.2)
    else (.NoDepthComplexitySampling, r2.2)

/-- The `switch` at the end of `renderDispatch`.  The external renderers are
not part of the embedded code: a call to one is recorded with its arguments.
`GL_DEBUG_CHECKD` is a macro of a header that is not among the sources; it is
taken to execute the statement it wraps once. -/
def dispatchSwitch (primitives : List Primitive) (algorithm : Algorithm)
    (d : DepthComplexityAlgorithm) (s : State) : State :=
  match algorithm with
  | .Goldfeather => s.emit (.renderGoldfeather primitives d)
  | .SCS => s.emit (.renderSCS primitives d)
  | _ => s

/-- `renderDispatch`. -/
def renderDispatch (env : Env) (primitives : List Primitive) (algorithm : Algorithm)
    (depthComplexityAlgorithm : DepthComplexityAlgorithm) (s : State) : State :=
  if primitives.isEmpty then s
  else
    -- if (algorithm == Automatic) { ... }
    let r1 : (Algorithm × DepthComplexityAlgorithm) × State :=
      if algorithm = .Automatic then
        let c := chooseDepthComplexityAlgorithm env primitives s
        ((chooseAlgorithm env primitives, c.1), c.2)
      else ((algorithm, depthComplexityAlgorithm), s)
    let algorithm1 := r1.1.1
    let d1 := r1.1.2
    -- if (depthComplexityAlgorithm == OcclusionQuery && !haveHardwareOcclusionQueries())
    let r2 : DepthComplexityAlgorithm × State :=
      if d1 = .OcclusionQuery then
        let h := haveHardwareOcclusionQueries env r1.2
        if !h.1 then (.DepthComplexitySampling, h.2) else (d1, h.2)
      else (d1, r1.2)
    if algorithm1 ≠ .Automatic ∧ r2.1 ≠ .DepthComplexityAlgorithmUnused then
      dispatchSwitch primitives algorithm1 r2.1 r2.2
    else r2.2

/-- The renderer invocations among the recorded calls, in order. -/
def rendererCalls (tr : List Event) : List Event :=
  tr.filter fun e =>
    match e with
    | .renderGoldfeather _ _ => true
    | .renderSCS _ _ => true
    | _ => false

/-- The diagnostics written to `std::cerr` among the recorded calls. -/
def diagnostics (tr : List Event) : List Event :=
  tr.filter fun e =>
    match e with
    | .cerrCompilationFailed _ _ => true
    | .cerrLinkFailed _ => true
    | _ => false

/-- A driver whose answers are simple functions of the history, for
evaluating the model on concrete inputs. -/
def Env.sample (arb nv : Bool) (conv : Nat) : Env where
  hasGLExtension := fun e => match e with
    | .ARB_occlusion_query => arb
    | .NV_occlusion_query => nv
  getConvexity := fun _ => conv
  operatorNew := fun live => live.foldr max 0 + 1
  glGenProgramsARB := fun tr => tr.length + 1
  glCreateShader := fun tr _ => tr.length + 1
  glCreateProgram := fun tr => tr.length + 1
  compileStatus := fun _ _ => true
  linkStatus := fun _ _ => true
  infoLog := fun _ _ => []

/-- The state of a freshly started process. -/
def State.init : State :=
  { gContext := 0, gContextDataMap := [], heap := [], trace := [] }

/-! ## context.cpp -/

/-- `std::map::find`: the value stored under `k`, if there is one. -/
def mapFind {K V : Type} [DecidableEq K] : List (K × V) → K → Option V
  | [], _ => none
  | (k', v) :: m, k => if k' = k then some v else mapFind m k

/-- The place a new key takes in a `std::map`: before the first larger key. -/
def mapInsertSorted {K V : Type} (lt : K → K → Bool) : List (K × V) → K → V → List (K × V)
  | [], k, v => [(k, v)]
  | (k', v') :: m, k, v =>
    if lt k k' then (k, v) :: (k', v') :: m else (k', v') :: mapInsertSorted lt m k v

/-- `std::map::insert`: a key that is already present keeps its value. -/
def mapInsert {K V : Type} [DecidableEq K] (lt : K → K → Bool) (m : List (K × V)) (k : K)
    (v : V) : List (K × V) :=
  if (mapFind m k).isSome then m else mapInsertSorted lt m k v

/-- A write through a reference to the value stored under `k`. -/
def mapSet {K V : Type} [DecidableEq K] : List (K × V) → K → V → List (K × V)
  | [], _, _ => []
  | (k', v') :: m, k, v => if k' = k then (k', v) :: m else (k', v') :: mapSet m k v

/-- `std::map::erase` of the entry found for `k`.  A `std::map` holds a key at
most once, so removing the entry found removes every entry with that key. -/
def mapErase {K V : Type} [DecidableEq K] (m : List (K × V)) (k : K) : List (K × V) :=
  m.filter fun e => e.1 ≠ k

/-- `operator<` on `int` keys. -/
def ltInt (a b : Int) : Bool := decide (a < b)

/-- `operator<` on `const char*` keys: the pointer values are compared. -/
def ltNat (a b : Nat) : Bool := decide (a < b)

/-- `operator<` on `std::pair<GLuint, GLuint>` keys: lexicographic. -/
def ltPair (a b : GLuint × GLuint) : Bool :=
  decide (a.1 < b.1) || (decide (a.1 = b.1) && decide (a.2 < b.2))

/-- The shader stage enumerant `GL_VERTEX_SHADER`; the OpenGL headers are not
among the sources, the value is the one of the OpenGL registry. -/
def GL_VERTEX_SHADER : GLenum := 0x8B31

/-- The shader stage enumerant `GL_FRAGMENT_SHADER` (OpenGL registry value). -/
def GL_FRAGMENT_SHADER : GLenum := 0x8B30

/-- The program target `GL_VERTEX_PROGRAM_ARB` (OpenGL registry value). -/
def GL_VERTEX_PROGRAM_ARB : GLenum := 0x8620

/-- The program target `GL_FRAGMENT_PROGRAM_ARB` (OpenGL registry value). -/
def GL_FRAGMENT_PROGRAM_ARB : GLenum := 0x8804

/-- The constructor `ContextData() : fARB(0), fEXT(0)`. -/
def ContextData.new : ContextData :=
  { fARB := 0, fEXT := 0, idFP := [], idShaderProg := [] }

/-- `setContext`. -/
def setContext (context : Int) (s : State) : State :=
  { s with gContext := context }

/-- `getContext`. -/
def getContext (s : State) : Int :=
  s.gContext

/-- `gContextDataMap[context]`: the record of `context`, which is default
constructed and inserted when the map has none. -/
def contextDataRef (context : Int) (s : State) : ContextData × State :=
  match mapFind s.gContextDataMap context with
  | some cd => (cd, s)
  | none =>
    (ContextData.new,
      { s with gContextDataMap :=
          mapInsertSorted ltInt s.gContextDataMap context ContextData.new })

/-- A write through the reference `contextData` that `gContextDataMap[context]`
returned. -/
def State.setContextData (s : State) (context : Int) (cd : ContextData) : State :=
  { s with gContextDataMap := mapSet s.gContextDataMap context cd }

/-- `OpenGL::getOffscreenBuffer`.  The two buffer classes are external: a
construction is recorded with the address `new` returned, which joins the
live objects. -/
def getOffscreenBuffer (env : Env) (type : OffscreenType) (s : State) : Ptr × State :=
  let context := getContext s
  let r := contextDataRef context s
  match type with
  | .FrameBufferObjectARB =>
    if r.1.fARB = 0 then
      let p := env.operatorNew r.2.heap
      let s1 := { r.2.emit (.newFrameBufferObject p) with heap := p :: r.2.heap }
      (p, s1.setContextData context { r.1 with fARB := p })
    else (r.1.fARB, r.2)
  | .FrameBufferObjectEXT =>
    if r.1.fEXT = 0 then
      let p := env.operatorNew r.2.heap
      let s1 := { r.2.emit (.newFrameBufferObjectExt p) with heap := p :: r.2.heap }
      (p, s1.setContextData context { r.1 with fEXT := p })
    else (r.1.fEXT, r.2)
  | .other _ => (0, r.2)

/-- `OpenGL::getARBProgram`. -/
def getARBProgram (env : Env) (target : GLenum) (prog : CStr) (len : Int) (s : State) :
    GLuint × State :=
  let context := getContext s
  let r := contextDataRef context s
  match mapFind r.1.idFP prog.addr with
  | some id => (id, r.2)
  | none =>
    let id := env.glGenProgramsARB r.2.trace
    let s1 := r.2.emit (.glGenProgramsARB id)
    let s2 := s1.emit (.glBindProgramARB target id)
    let s3 := s2.emit (.glProgramStringARB target len prog)
    -- `it` is the entry just inserted, so `it->second` is `id`
    (id, s3.setContextData context { r.1 with idFP := mapInsert ltNat r.1.idFP prog.addr id })

/-- `OpenGL::getARBVertexProgram`. -/
def getARBVertexProgram (env : Env) (prog : CStr) (len : Int) (s : State) : GLuint × State :=
  getARBProgram env GL_VERTEX_PROGRAM_ARB prog len s

/-- `OpenGL::getARBFragmentProgram`. -/
def getARBFragmentProgram (env : Env) (prog : CStr) (len : Int) (s : State) : GLuint × State :=
  getARBProgram env GL_FRAGMENT_PROGRAM_ARB prog len s

/-- `OpenGL::getShader`. -/
def getShader (env : Env) (target : GLenum) (prog : CStr) (s : State) : GLuint × State :=
  let context := getContext s
  let r := contextDataRef context s
  match mapFind r.1.idFP prog.addr with
  | some id => (id, r.2)
  | none =>
    let id := env.glCreateShader r.2.trace target
    let s1 := r.2.emit (.glCreateShader target id)
    let s2 := s1.emit (.glShaderSource id prog)
    let s3 := s2.emit (.glCompileShader id)
    let success := env.compileStatus s3.trace id
    let s4 := s3.emit (.glGetShaderiv id success)
    let s5 :=
      if success then s4
      else (s4.emit (.glGetShaderInfoLog id)).emit
        (.cerrCompilationFailed target (env.infoLog s4.trace id))
    -- `it` is the entry just inserted, so `it->second` is `id`
    (id, s5.setContextData context { r.1 with idFP := mapInsert ltNat r.1.idFP prog.addr id })

/-- `OpenGL::getVertexShader`. -/
def getVertexShader (env : Env) (prog : CStr) (s : State) : GLuint × State :=
  getShader env GL_VERTEX_SHADER prog s

/-- `OpenGL::getFragmentShader`. -/
def getFragmentShader (env : Env) (prog : CStr) (s : State) : GLuint × State :=
  getShader env GL_FRAGMENT_SHADER prog s

/-- `OpenGL::getProgram`. -/
def getProgram (env : Env) (vertId fragId : GLuint) (s : State) : GLuint × State :=
  let context := getContext s
  let r := contextDataRef context s
  let progKey := (vertId, fragId)
  match mapFind r.1.idShaderProg progKey with
  | some id => (id, r.2)
  | none =>
    let id := env.glCreateProgram r.2.trace
    let s1 := r.2.emit (.glCreateProgram id)
    let s2 := s1.emit (.glAttachShader id vertId)
    let s3 := s2.emit (.glAttachShader id fragId)
    let s4 := s3.emit (.glLinkProgram id)
    let success := env.linkStatus s4.trace id
    let s5 := s4.emit (.glGetProgramiv id success)
    let s6 :=
      if success then s5
      else (s5.emit (.glGetProgramInfoLog id)).emit (.cerrLinkFailed (env.infoLog s5.trace id))
    -- `it` is the entry just inserted, so `it->second` is `id`
    (id, s6.setContextData context
      { r.1 with idShaderProg := mapInsert ltPair r.1.idShaderProg progKey id })

/-- `OpenGL::getShaderProgram`. -/
def getShaderProgram (env : Env) (vert frag : CStr) (s : State) : GLuint × State :=
  let v := getVertexShader env vert s
  let f := getFragmentShader env frag v.2
  getProgram env v.1 f.1 f.2

/-- `delete p` on a `FrameBufferObject*`: nothing happens for the null
pointer, otherwise the object is destroyed and is no longer live. -/
def deleteFrameBufferObject (p : Ptr) (s : State) : State :=
  if p = 0 then s
  else { s.emit (.deleteFrameBufferObject p) with heap := s.heap.filter fun q => q ≠ p }

/-- `delete p` on a `FrameBufferObjectExt*`. -/
def deleteFrameBufferObjectExt (p : Ptr) (s : State) : State :=
  if p = 0 then s
  else { s.emit (.deleteFrameBufferObjectExt p) with heap := s.heap.filter fun q => q ≠ p }

/-- The loop of `freeResources` over `idFP`, in iteration order. -/
def deleteProgramsLoop : List (Nat × GLuint) → State → State
  | [], s => s
  | e :: rest, s => deleteProgramsLoop rest (s.emit (.glDeleteProgramsARB e.2))

/-- `OpenGL::freeResources`, which is also what `OpenCSG::freeResources`
forwards to. -/
def freeResources (s : State) : State :=
  let context := getContext s
  match mapFind s.gContextDataMap context with
  | some cd =>
    let s1 := deleteFrameBufferObject cd.fARB s
    let s2 := deleteFrameBufferObjectExt cd.fEXT s1
    let s3 := deleteProgramsLoop cd.idFP s2
    { s3 with gContextDataMap := mapErase s3.gContextDataMap context }
  | none => s

/-- One call into `context.cpp`, for talking about sequences of calls. -/
inductive Op where
  | setContext (context : Int)
  | getOffscreenBuffer (type : OffscreenType)
  | getARBProgram (target : GLenum) (prog : CStr) (len : Int)
  | getShader (target : GLenum) (prog : CStr)
  | getProgram (vertId fragId : GLuint)
  | getShaderProgram (vert frag : CStr)
  | freeResources
  deriving DecidableEq, Repr

/-- The state after one call; the value the call returns is dropped. -/
def Op.run (env : Env) (op : Op) (s : State) : State :=
  match op with
  | .setContext c => OpenCSG.setContext c s
  | .getOffscreenBuffer t => (OpenCSG.getOffscreenBuffer env t s).2
  | .getARBProgram target prog len => (OpenCSG.getARBProgram env target prog len s).2
  | .getShader target prog => (OpenCSG.getShader env target prog s).2
  | .getProgram v f => (OpenCSG.getProgram env v f s).2
  | .getShaderProgram v f => (OpenCSG.getShaderProgram env v f s).2
  | .freeResources => OpenCSG.freeResources s

/-- The state after a sequence of calls, executed left to right. -/
def runOps (env : Env) : List Op → State → State
  | [], s => s
  | op :: ops, s => runOps env ops (op.run env s)

/-- Whether a call is one of the resource lookups (offscreen buffer, ARB
program, shader, linked program): neither a context switch nor a teardown. -/
def Op.isLookup : Op → Bool
  | .setContext _ => false
  | .freeResources => false
  | _ => true

/-- The buffer pointer a record holds for an offscreen type; no record field
belongs to an unsupported type. -/
def ContextData.buffer (cd : ContextData) : OffscreenType → Ptr
  | .FrameBufferObjectARB => cd.fARB
  | .FrameBufferObjectEXT => cd.fEXT
  | .other _ => 0

/-- The buffer pointer cached for `context` and `type`: null when the context
has no record. -/
def State.buffer (s : State) (context : Int) (type : OffscreenType) : Ptr :=
  match mapFind s.gContextDataMap context with
  | some cd => cd.buffer type
  | none => 0

/-- The number of constructions of a buffer of kind `type` among some calls. -/
def countNew (type : OffscreenType) (tr : List Event) : Nat :=
  (tr.filter fun e =>
    match type, e with
    | .FrameBufferObjectARB, .newFrameBufferObject _ => true
    | .FrameBufferObjectEXT, .newFrameBufferObjectExt _ => true
    | _, _ => false).length

/-- The number of buffers of kind `type` constructed while `context` is the
active context, over a sequence of calls started in `s`: each call contributes
the constructions it appended to the trace if `context` was active when it
was made. -/
def constructions (env : Env) (type : OffscreenType) (context : Int) : List Op → State → Nat
  | [], _ => 0
  | op :: ops, s =>
    (if getContext s = context then
        countNew type ((op.run env s).trace.drop s.trace.length)
      else 0)
      + constructions env type context ops (op.run env s)

/-- What is assumed of `operator new`: it never returns the null pointer and
never the address of a live object. -/
def Env.AllocatorOK (env : Env) : Prop :=
  ∀ live : List Ptr, env.operatorNew live ≠ 0 ∧ env.operatorNew live ∉ live

/-- A step that touches no offscreen buffer: the active context, the live
objects and every cached buffer pointer are kept, and the calls appended to
the trace construct no buffer. -/
def NoBufferEffect (s s' : State) : Prop :=
  s'.gContext = s.gContext ∧ s'.heap = s.heap ∧
  (∀ c t, s'.buffer c t = s.buffer c t) ∧
  ∃ added, s'.trace = s.trace ++ added ∧ ∀ t, countNew t added = 0

/-- Exclusive ownership of the offscreen buffers: every cached buffer is a
live object, and no buffer is cached for two different contexts. -/
def State.WF (s : State) : Prop :=
  (∀ c t, s.buffer c t ≠ 0 → s.buffer c t ∈ s.heap) ∧
  (∀ c1 t1 c2 t2, c1 ≠ c2 → s.buffer c1 t1 ≠ 0 → s.buffer c1 t1 ≠ s.buffer c2 t2)

/-- The handle cached under a source pointer in the record of `context`, if
the context has a record with such an entry. -/
def State.shader (s : State) (context : Int) (addr : Nat) : Option GLuint :=
  match mapFind s.gContextDataMap context with
  | some cd => mapFind cd.idFP addr
  | none => none

/-- The linked program cached under a pair of shader handles in the record
of `context`. -/
def State.program (s : State) (context : Int) (key : GLuint × GLuint) : Option GLuint :=
  match mapFind s.gContextDataMap context with
  | some cd => mapFind cd.idShaderProg key
  | none => none

/-- The state after a cache miss in the active context: the record obtained
by `gContextDataMap[context]` is replaced by `cd` and `calls` have been
issued. -/
def State.withRecord (s : State) (cd : ContextData) (calls : List Event) : State :=
  { gContext := s.gContext
    gContextDataMap := mapSet (contextDataRef s.gContext s).2.gContextDataMap s.gContext cd
    heap := s.heap
    trace := s.trace ++ calls }

/-- The native calls of the miss branch of `getShader`, when `tr` is the
trace so far. -/
def compileCalls (env : Env) (tr : List Event) (target : GLenum) (prog : CStr) : List Event :=
  [.glCreateShader target (env.glCreateShader tr target),
   .glShaderSource (env.glCreateShader tr target) prog,
   .glCompileShader (env.glCreateShader tr target),
   .glGetShaderiv (env.glCreateShader tr target)
     (env.compileStatus (tr ++ [.glCreateShader target (env.glCreateShader tr target),
        .glShaderSource (env.glCreateShader tr target) prog,
        .glCompileShader (env.glCreateShader tr target)]) (env.glCreateShader tr target))] ++
  if env.compileStatus (tr ++ [.glCreateShader target (env.glCreateShader tr target),
        .glShaderSource (env.glCreateShader tr target) prog,
        .glCompileShader (env.glCreateShader tr target)]) (env.glCreateShader tr target) = true
  then []
  else
    [.glGetShaderInfoLog (env.glCreateShader tr target),
     .cerrCompilationFailed target
       (env.infoLog (tr ++ [.glCreateShader target (env.glCreateShader tr target),
          .glShaderSource (env.glCreateShader tr target) prog,
          .glCompileShader (env.glCreateShader tr target),
          .glGetShaderiv (env.glCreateShader tr target) false])
        (env.glCreateShader tr target))]

/-- The native calls of the miss branch of `getProgram`, when `tr` is the
trace so far. -/
def linkCalls (env : Env) (tr : List Event) (vertId fragId : GLuint) : List Event :=
  [.glCreateProgram (env.glCreateProgram tr),
   .glAttachShader (env.glCreateProgram tr) vertId,
   .glAttachShader (env.glCreateProgram tr) fragId,
   .glLinkProgram (env.glCreateProgram tr),
   .glGetProgramiv (env.glCreateProgram tr)
     (env.linkStatus (tr ++ [.glCreateProgram (env.glCreateProgram tr),
        .glAttachShader (env.glCreateProgram tr) vertId,
        .glAttachShader (env.glCreateProgram tr) fragId,
        .glLinkProgram (env.glCreateProgram tr)]) (env.glCreateProgram tr))] ++
  if env.linkStatus (tr ++ [.glCreateProgram (env.glCreateProgram tr),
        .glAttachShader (env.glCreateProgram tr) vertId,
        .glAttachShader (env.glCreateProgram tr) fragId,
        .glLinkProgram (env.glCreateProgram tr)]) (env.glCreateProgram tr) = true
  then []
  else
    [.glGetProgramInfoLog (env.glCreateProgram tr),
     .cerrLinkFailed
       (env.infoLog (tr ++ [.glCreateProgram (env.glCreateProgram tr),
          .glAttachShader (env.glCreateProgram tr) vertId,
          .glAttachShader (env.glCreateProgram tr) fragId,
          .glLinkProgram (env.glCreateProgram tr),
          .glGetProgramiv (env.glCreateProgram tr) false])
        (env.glCreateProgram tr))]

/-- The native calls of the miss branch of `getARBProgram`. -/
def arbCalls (env : Env) (tr : List Event) (target : GLenum) (prog : CStr) (len : Int) :
    List Event :=
  [.glGenProgramsARB (env.glGenProgramsARB tr),
   .glBindProgramARB target (env.glGenProgramsARB tr),
   .glProgramStringARB target len prog]

/-- The number of `glCompileShader` calls in a trace. -/
def countCompile (tr : List Event) : Nat :=
  (tr.filter fun e =>
    match e with
    | .glCompileShader _ => true
    | _ => false).length

/-- The number of `glCreateShader` calls in a trace. -/
def countCreateShader (tr : List Event) : Nat :=
  (tr.filter fun e =>
    match e with
    | .glCreateShader _ _ => true
    | _ => false).length

/-- The number of `glCreateProgram` calls in a trace. -/
def countCreateProgram (tr : List Event) : Nat :=
  (tr.filter fun e =>
    match e with
    | .glCreateProgram _ => true
    | _ => false).length

/-- The number of `glLinkProgram` calls in a trace. -/
def countLink (tr : List Event) : Nat :=
  (tr.filter fun e =>
    match e with
    | .glLinkProgram _ => true
    | _ => false).length

/-- A trace with the outcome of the status queries erased: the status flag
is masked and the diagnostic calls that follow a failure are dropped. -/
def eraseStatus (tr : List Event) : List Event :=
  tr.filterMap fun e =>
    match e with
    | .glGetShaderiv id _ => some (.glGetShaderiv id true)
    | .glGetProgramiv id _ => some (.glGetProgramiv id true)
    | .glGetShaderInfoLog _ => none
    | .cerrCompilationFailed _ _ => none
    | .glGetProgramInfoLog _ => none
    | .cerrLinkFailed _ => none
    | e => some e

/-! ## Theorems -/

/-! ### Shared lemmas on the dispatcher -/

theorem rendererCalls_append (xs ys : List Event) :
    rendererCalls (xs ++ ys) = rendererCalls xs ++ rendererCalls ys := by
  simp [rendererCalls]

theorem diagnostics_append (xs ys : List Event) :
    diagnostics (xs ++ ys) = diagnostics xs ++ diagnostics ys := by
  simp [diagnostics]

/-- The value of the capability probe does not depend on the state. -/
theorem haveHardwareOcclusionQueries_fst (env : Env) (s : State) :
    (haveHardwareOcclusionQueries env s).1 =
      (env.hasGLExtension .ARB_occlusion_query || env.hasGLExtension .NV_occlusion_query) := by
  unfold haveHardwareOcclusionQueries hasGLExtension
  cases env.hasGLExtension .ARB_occlusion_query <;> simp

/-- The capability probe only appends extension queries to the trace. -/
theorem haveHardwareOcclusionQueries_snd (env : Env) (s : State) :
    (haveHardwareOcclusionQueries env s).2 =
      if env.hasGLExtension .ARB_occlusion_query then
        s.emit (.hasGLExtension .ARB_occlusion_query)
      else (s.emit (.hasGLExtension .ARB_occlusion_query)).emit
        (.hasGLExtension .NV_occlusion_query) := by
  unfold haveHardwareOcclusionQueries hasGLExtension
  cases env.hasGLExtension .ARB_occlusion_query <;> simp

/-! ### C1 -/

/-- C1: for a non-empty primitive list and an explicit algorithm (Goldfeather
or SCS), a request with `OcclusionQuery` while `haveHardwareOcclusionQueries()`
is false probes both extensions and then invokes the renderer matching the
algorithm, passing `DepthComplexitySampling`. -/
theorem renderDispatch_explicit_downgrade (env : Env) (primitives : List Primitive)
    (s : State) (hne : primitives ≠ [])
    (hhw : (haveHardwareOcclusionQueries env s).1 = false) :
    renderDispatch env primitives .Goldfeather .OcclusionQuery s =
        ((s.emit (.hasGLExtension .ARB_occlusion_query)).emit
          (.hasGLExtension .NV_occlusion_query)).emit
          (.renderGoldfeather primitives .DepthComplexitySampling) ∧
    renderDispatch env primitives .SCS .OcclusionQuery s =
        ((s.emit (.hasGLExtension .ARB_occlusion_query)).emit
          (.hasGLExtension .NV_occlusion_query)).emit
          (.renderSCS primitives .DepthComplexitySampling) := by
  rw [haveHardwareOcclusionQueries_fst] at hhw
  have harb : env.hasGLExtension .ARB_occlusion_query = false := by
    cases h : env.hasGLExtension .ARB_occlusion_query <;> simp_all
  have hnv : env.hasGLExtension .NV_occlusion_query = false := by
    cases h : env.hasGLExtension .NV_occlusion_query <;> simp_all
  have hfst : ∀ t, (haveHardwareOcclusionQueries env t).1 = false := by
    intro t; rw [haveHardwareOcclusionQueries_fst, harb, hnv]; rfl
  have hsnd : ∀ t, (haveHardwareOcclusionQueries env t).2 =
      (t.emit (.hasGLExtension .ARB_occlusion_query)).emit
        (.hasGLExtension .NV_occlusion_query) := by
    intro t; rw [haveHardwareOcclusionQueries_snd, harb]; rfl
  have hemp : primitives.isEmpty = false := by
    cases primitives with
    | nil => exact absurd rfl hne
    | cons _ _ => rfl
  constructor <;> simp [renderDispatch, hemp, hfst, hsnd, dispatchSwitch]

/-- C1 witness: two primitives, no occlusion-query extension. -/
theorem renderDispatch_explicit_downgrade_witness :
    renderDispatch (Env.sample false false 1) [7, 9] .Goldfeather .OcclusionQuery State.init =
        ((State.init.emit (.hasGLExtension .ARB_occlusion_query)).emit
          (.hasGLExtension .NV_occlusion_query)).emit
          (.renderGoldfeather [7, 9] .DepthComplexitySampling) ∧
    renderDispatch (Env.sample false false 1) [7, 9] .SCS .OcclusionQuery State.init =
        ((State.init.emit (.hasGLExtension .ARB_occlusion_query)).emit
          (.hasGLExtension .NV_occlusion_query)).emit
          (.renderSCS [7, 9] .DepthComplexitySampling) :=
  renderDispatch_explicit_downgrade (Env.sample false false 1) [7, 9] State.init
    (by decide) (by decide)

/-- The depth-complexity selector only appends extension queries. -/
theorem chooseDepthComplexityAlgorithm_rendererCalls (env : Env)
    (primitives : List Primitive) (s : State) :
    rendererCalls (chooseDepthComplexityAlgorithm env primitives s).2.trace =
      rendererCalls s.trace := by
  unfold chooseDepthComplexityAlgorithm
  simp only [haveHardwareOcclusionQueries_fst, haveHardwareOcclusionQueries_snd]
  cases env.hasGLExtension .ARB_occlusion_query <;>
    cases env.hasGLExtension .NV_occlusion_query <;>
    by_cases h40 : 40 < primitives.length <;>
    by_cases h20 : 20 < primitives.length <;>
    simp [h40, h20, State.emit, rendererCalls]

/-- The value the depth-complexity selector returns, in closed form. -/
theorem chooseDepthComplexityAlgorithm_fst (env : Env)
    (primitives : List Primitive) (s : State) :
    (chooseDepthComplexityAlgorithm env primitives s).1 =
      if (haveHardwareOcclusionQueries env s).1 = false ∧ 40 < primitives.length then
        .DepthComplexitySampling
      else if (haveHardwareOcclusionQueries env s).1 = true ∧ 20 < primitives.length then
        .OcclusionQuery
      else .NoDepthComplexitySampling := by
  unfold chooseDepthComplexityAlgorithm
  simp only [haveHardwareOcclusionQueries_fst]
  cases env.hasGLExtension .ARB_occlusion_query <;>
    cases env.hasGLExtension .NV_occlusion_query <;>
    by_cases h40 : 40 < primitives.length <;>
    by_cases h20 : 20 < primitives.length <;>
    simp [h40, h20]

/-- What an automatic request does on a non-empty list: the selector's
algorithm is switched on with the selector's depth-complexity value, after
the selector's probes and, for `OcclusionQuery`, one more probe. -/
theorem renderDispatch_automatic_rendererCalls (env : Env) (primitives : List Primitive)
    (d : DepthComplexityAlgorithm) (s : State) (hne : primitives ≠ []) :
    rendererCalls (renderDispatch env primitives .Automatic d s).trace =
      rendererCalls s.trace ++
        [if env.getConvexity primitives ≥ 2 then
           Event.renderGoldfeather primitives (chooseDepthComplexityAlgorithm env primitives s).1
         else
           Event.renderSCS primitives (chooseDepthComplexityAlgorithm env primitives s).1] := by
  have hemp : primitives.isEmpty = false := by
    cases primitives with
    | nil => exact absurd rfl hne
    | cons _ _ => rfl
  unfold renderDispatch chooseDepthComplexityAlgorithm chooseAlgorithm
  simp only [haveHardwareOcclusionQueries_fst, haveHardwareOcclusionQueries_snd, hemp]
  cases env.hasGLExtension .ARB_occlusion_query <;>
    cases env.hasGLExtension .NV_occlusion_query <;>
    by_cases h40 : 40 < primitives.length <;>
    by_cases h20 : 20 < primitives.length <;>
    by_cases hc : 2 ≤ env.getConvexity primitives <;>
    simp [h40, h20, hc, State.emit, rendererCalls, dispatchSwitch]

/-! ### C2 -/

/-- C2: `chooseAlgorithm` returns Goldfeather exactly when the convexity is at
least 2 and SCS exactly when it is at most 1; on a non-empty list an automatic
request invokes `renderGoldfeather` (once, and no other renderer) when the
convexity is at least 2 and `renderSCS` when it is at most 1. -/
theorem renderDispatch_automatic_algorithm (env : Env) (primitives : List Primitive)
    (d : DepthComplexityAlgorithm) (s : State) (hne : primitives ≠ []) :
    (chooseAlgorithm env primitives = .Goldfeather ↔ env.getConvexity primitives ≥ 2) ∧
    (chooseAlgorithm env primitives = .SCS ↔ env.getConvexity primitives ≤ 1) ∧
    (env.getConvexity primitives ≥ 2 →
      rendererCalls (renderDispatch env primitives .Automatic d s).trace =
        rendererCalls s.trace ++
          [.renderGoldfeather primitives (chooseDepthComplexityAlgorithm env primitives s).1]) ∧
    (env.getConvexity primitives ≤ 1 →
      rendererCalls (renderDispatch env primitives .Automatic d s).trace =
        rendererCalls s.trace ++
          [.renderSCS primitives (chooseDepthComplexityAlgorithm env primitives s).1]) := by
  refine ⟨?_, ?_, ?_, ?_⟩
  · unfold chooseAlgorithm
    by_cases hc : 2 ≤ env.getConvexity primitives <;> simp [hc]
  · unfold chooseAlgorithm
    by_cases hc : 2 ≤ env.getConvexity primitives
    · simp [hc]; omega
    · simp [hc]; omega
  · intro hc
    rw [renderDispatch_automatic_rendererCalls env primitives d s hne, if_pos hc]
  · intro hc
    have hc2 : ¬ env.getConvexity primitives ≥ 2 := by omega
    rw [renderDispatch_automatic_rendererCalls env primitives d s hne, if_neg hc2]

/-- C2 witness: one primitive, once with convexity 3. -/
theorem renderDispatch_automatic_algorithm_witness :
    (chooseAlgorithm (Env.sample true false 3) [5] = .Goldfeather ↔
      (Env.sample true false 3).getConvexity [5] ≥ 2) ∧
    (chooseAlgorithm (Env.sample true false 3) [5] = .SCS ↔
      (Env.sample true false 3).getConvexity [5] ≤ 1) ∧
    ((Env.sample true false 3).getConvexity [5] ≥ 2 →
      rendererCalls (renderDispatch (Env.sample true false 3) [5] .Automatic
          .DepthComplexityAlgorithmUnused State.init).trace =
        rendererCalls State.init.trace ++
          [.renderGoldfeather [5]
            (chooseDepthComplexityAlgorithm (Env.sample true false 3) [5] State.init).1]) ∧
    ((Env.sample true false 3).getConvexity [5] ≤ 1 →
      rendererCalls (renderDispatch (Env.sample true false 3) [5] .Automatic
          .DepthComplexityAlgorithmUnused State.init).trace =
        rendererCalls State.init.trace ++
          [.renderSCS [5]
            (chooseDepthComplexityAlgorithm (Env.sample true false 3) [5] State.init).1]) :=
  renderDispatch_automatic_algorithm (Env.sample true false 3) [5]
    .DepthComplexityAlgorithmUnused State.init (by decide)

/-! ### C3 -/

/-- C3: the depth-complexity decision table.  With `hw` the value of
`haveHardwareOcclusionQueries()` and `n` the number of primitives, the result
is `DepthComplexitySampling` iff `hw = false` and `n > 40`, `OcclusionQuery`
iff `hw = true` and `n > 20`, and `NoDepthComplexitySampling` iff neither;
the four boundary rows of the table are listed explicitly. -/
theorem chooseDepthComplexityAlgorithm_table (env : Env) (primitives : List Primitive)
    (s : State) :
    ((chooseDepthComplexityAlgorithm env primitives s).1 = .DepthComplexitySampling ↔
      ((haveHardwareOcclusionQueries env s).1 = false ∧ primitives.length > 40)) ∧
    ((chooseDepthComplexityAlgorithm env primitives s).1 = .OcclusionQuery ↔
      ((haveHardwareOcclusionQueries env s).1 = true ∧ primitives.length > 20)) ∧
    ((chooseDepthComplexityAlgorithm env primitives s).1 = .NoDepthComplexitySampling ↔
      (¬ ((haveHardwareOcclusionQueries env s).1 = false ∧ primitives.length > 40) ∧
       ¬ ((haveHardwareOcclusionQueries env s).1 = true ∧ primitives.length > 20))) ∧
    ((haveHardwareOcclusionQueries env s).1 = false → primitives.length = 41 →
      (chooseDepthComplexityAlgorithm env primitives s).1 = .DepthComplexitySampling) ∧
    ((haveHardwareOcclusionQueries env s).1 = false → primitives.length = 40 →
      (chooseDepthComplexityAlgorithm env primitives s).1 = .NoDepthComplexitySampling) ∧
    ((haveHardwareOcclusionQueries env s).1 = true → primitives.length = 21 →
      (chooseDepthComplexityAlgorithm env primitives s).1 = .OcclusionQuery) ∧
    ((haveHardwareOcclusionQueries env s).1 = true → primitives.length = 20 →
      (chooseDepthComplexityAlgorithm env primitives s).1 = .NoDepthComplexitySampling) := by
  rw [chooseDepthComplexityAlgorithm_fst]
  cases (haveHardwareOcclusionQueries env s).1 <;>
    by_cases h40 : 40 < primitives.length <;>
    by_cases h20 : 20 < primitives.length <;>
    simp [h40, h20] <;> omega

/-! ### C4 -/

/-- C4: on an empty primitive list `renderDispatch` returns the state it was
given, whatever the algorithm and depth-complexity arguments: nothing is
appended to the trace (no renderer, no extension query, no native call) and
the active context id, the context records and the heap are the same. -/
theorem renderDispatch_empty (env : Env) (a : Algorithm) (d : DepthComplexityAlgorithm)
    (s : State) :
    renderDispatch env [] a d s = s ∧
    (renderDispatch env [] a d s).trace = s.trace ∧
    (renderDispatch env [] a d s).gContext = s.gContext ∧
    (renderDispatch env [] a d s).gContextDataMap = s.gContextDataMap := by
  simp [renderDispatch]

/-! ### C5 -/

/-- C5: under the same environment (hence the same capability probe result)
and from the same state, two automatic requests that differ only in the
depth-complexity argument end in the same state; in particular they invoke
the same renderer with the same depth-complexity value. -/
theorem renderDispatch_automatic_ignores_argument (env : Env) (primitives : List Primitive)
    (d1 d2 : DepthComplexityAlgorithm) (s : State) :
    renderDispatch env primitives .Automatic d1 s =
      renderDispatch env primitives .Automatic d2 s ∧
    rendererCalls (renderDispatch env primitives .Automatic d1 s).trace =
      rendererCalls (renderDispatch env primitives .Automatic d2 s).trace := by
  have h : renderDispatch env primitives .Automatic d1 s =
      renderDispatch env primitives .Automatic d2 s := by
    simp [renderDispatch]
  exact ⟨h, by rw [h]⟩

/-! ### C6 -/

/-- C6: for a non-empty primitive list and a depth-complexity argument `d`
other than `DepthComplexityAlgorithmUnused`, an explicit Goldfeather request
adds exactly one renderer call, `renderGoldfeather`, and an explicit SCS
request exactly one, `renderSCS`; the call carries the caller's primitive list
and `d` itself, except that `OcclusionQuery` is replaced by
`DepthComplexitySampling` when `haveHardwareOcclusionQueries()` is false. -/
theorem renderDispatch_explicit_routing (env : Env) (primitives : List Primitive)
    (d : DepthComplexityAlgorithm) (s : State) (hne : primitives ≠ [])
    (hd : d ≠ .DepthComplexityAlgorithmUnused) :
    rendererCalls (renderDispatch env primitives .Goldfeather d s).trace =
      rendererCalls s.trace ++
        [.renderGoldfeather primitives
          (if d = .OcclusionQuery ∧ (haveHardwareOcclusionQueries env s).1 = false then
            .DepthComplexitySampling else d)] ∧
    rendererCalls (renderDispatch env primitives .SCS d s).trace =
      rendererCalls s.trace ++
        [.renderSCS primitives
          (if d = .OcclusionQuery ∧ (haveHardwareOcclusionQueries env s).1 = false then
            .DepthComplexitySampling else d)] := by
  have hemp : primitives.isEmpty = false := by
    cases primitives with
    | nil => exact absurd rfl hne
    | cons _ _ => rfl
  unfold renderDispatch
  simp only [haveHardwareOcclusionQueries_fst, haveHardwareOcclusionQueries_snd, hemp]
  by_cases hq : d = .OcclusionQuery
  · subst hq
    cases env.hasGLExtension .ARB_occlusion_query <;>
      cases env.hasGLExtension .NV_occlusion_query <;>
      simp [State.emit, rendererCalls, dispatchSwitch]
  · simp [hq, hd, State.emit, rendererCalls, dispatchSwitch]

/-- C6 witness: three primitives, `OcclusionQuery` requested, no hardware
support. -/
theorem renderDispatch_explicit_routing_witness :
    rendererCalls (renderDispatch (Env.sample false false 1) [1, 2, 3] .Goldfeather
        .OcclusionQuery State.init).trace =
      rendererCalls State.init.trace ++
        [.renderGoldfeather [1, 2, 3]
          (if DepthComplexityAlgorithm.OcclusionQuery = .OcclusionQuery ∧
              (haveHardwareOcclusionQueries (Env.sample false false 1) State.init).1 = false then
            .DepthComplexitySampling else .OcclusionQuery)] ∧
    rendererCalls (renderDispatch (Env.sample false false 1) [1, 2, 3] .SCS
        .OcclusionQuery State.init).trace =
      rendererCalls State.init.trace ++
        [.renderSCS [1, 2, 3]
          (if DepthComplexityAlgorithm.OcclusionQuery = .OcclusionQuery ∧
              (haveHardwareOcclusionQueries (Env.sample false false 1) State.init).1 = false then
            .DepthComplexitySampling else .OcclusionQuery)] :=
  renderDispatch_explicit_routing (Env.sample false false 1) [1, 2, 3] .OcclusionQuery
    State.init (by decide) (by decide)

/-! ### C7 -/

/-- C7: an explicit Goldfeather or SCS request with
`DepthComplexityAlgorithmUnused` returns the state unchanged, and a request
whose algorithm value is none of Automatic, Goldfeather, SCS adds no renderer
call and no diagnostic and leaves the context id, the records and the heap
unchanged, whatever the depth-complexity argument.  The function is total and
has no error result. -/
theorem renderDispatch_unsupported_noop (env : Env) (primitives : List Primitive)
    (d : DepthComplexityAlgorithm) (code : Int) (s : State) :
    renderDispatch env primitives .Goldfeather .DepthComplexityAlgorithmUnused s = s ∧
    renderDispatch env primitives .SCS .DepthComplexityAlgorithmUnused s = s ∧
    rendererCalls (renderDispatch env primitives (.other code) d s).trace =
      rendererCalls s.trace ∧
    diagnostics (renderDispatch env primitives (.other code) d s).trace =
      diagnostics s.trace ∧
    (renderDispatch env primitives (.other code) d s).gContext = s.gContext ∧
    (renderDispatch env primitives (.other code) d s).gContextDataMap = s.gContextDataMap ∧
    (renderDispatch env primitives (.other code) d s).heap = s.heap := by
  refine ⟨?_, ?_, ?_⟩
  · simp [renderDispatch]
  · simp [renderDispatch]
  · unfold renderDispatch
    simp only [haveHardwareOcclusionQueries_fst, haveHardwareOcclusionQueries_snd]
    cases primitives with
    | nil => simp
    | cons p ps =>
      by_cases hq : d = .OcclusionQuery
      · subst hq
        cases env.hasGLExtension .ARB_occlusion_query <;>
          cases env.hasGLExtension .NV_occlusion_query <;>
          simp [State.emit, rendererCalls, diagnostics, dispatchSwitch]
      · by_cases hu : d = .DepthComplexityAlgorithmUnused <;>
          simp [hq, hu, dispatchSwitch]

/-! ### Shared lemmas on the maps and the context records -/

theorem mapFind_mapSet {K V : Type} [DecidableEq K] (m : List (K × V)) (k k' : K) (v : V) :
    mapFind (mapSet m k v) k' =
      if k' = k then (mapFind m k).map (fun _ => v) else mapFind m k' := by
  induction m with
  | nil => simp [mapSet, mapFind]
  | cons e m ih =>
    obtain ⟨a, b⟩ := e
    by_cases hak : a = k
    · subst hak
      by_cases hk : k' = a
      · subst hk; simp [mapSet, mapFind]
      · have hk2 : ¬ a = k' := fun h => hk h.symm
        simp [mapSet, mapFind, hk, hk2]
    · by_cases hk : k' = k
      · subst hk
        simp [mapSet, mapFind, hak, ih]
      · by_cases hak2 : a = k'
        · simp [mapSet, mapFind, hak, hk, hak2]
        · simp [mapSet, mapFind, hak, hk, hak2, ih]

theorem mapFind_mapInsertSorted_ne {K V : Type} [DecidableEq K] (lt : K → K → Bool)
    (m : List (K × V)) (k k' : K) (v : V) (h : k' ≠ k) :
    mapFind (mapInsertSorted lt m k v) k' = mapFind m k' := by
  have hk : ¬ k = k' := fun e => h e.symm
  induction m with
  | nil => simp [mapInsertSorted, mapFind, hk]
  | cons e m ih =>
    obtain ⟨a, b⟩ := e
    by_cases hlt : lt k a = true
    · simp [mapInsertSorted, mapFind, hlt, hk]
    · by_cases hak : a = k'
      · subst hak
        simp [mapInsertSorted, mapFind, hlt]
      · simp [mapInsertSorted, mapFind, hlt, hak, ih]

theorem mapFind_mapInsertSorted_self {K V : Type} [DecidableEq K] (lt : K → K → Bool)
    (m : List (K × V)) (k : K) (v : V) (h : mapFind m k = none) :
    mapFind (mapInsertSorted lt m k v) k = some v := by
  induction m with
  | nil => simp [mapInsertSorted, mapFind]
  | cons e m ih =>
    obtain ⟨a, b⟩ := e
    by_cases hak : a = k
    · simp [mapFind, hak] at h
    · have hm : mapFind m k = none := by simpa [mapFind, hak] using h
      by_cases hlt : lt k a = true
      · simp [mapInsertSorted, mapFind, hlt]
      · simp [mapInsertSorted, mapFind, hlt, hak, ih hm]

theorem mapFind_mapErase {K V : Type} [DecidableEq K] (m : List (K × V)) (k k' : K) :
    mapFind (mapErase m k) k' = if k' = k then none else mapFind m k' := by
  induction m with
  | nil => simp [mapErase, mapFind]
  | cons e m ih =>
    obtain ⟨a, b⟩ := e
    unfold mapErase at ih ⊢
    by_cases hak : a = k
    · subst hak
      by_cases hk : k' = a
      · subst hk; simpa [mapFind] using ih
      · have hk2 : ¬ a = k' := fun h => hk h.symm
        simpa [mapFind, hk, hk2] using ih
    · by_cases hk : k' = k
      · subst hk; simpa [mapFind, hak] using ih
      · by_cases hak2 : a = k'
        · simp [mapFind, hak, hk, hak2]
        · simpa [mapFind, hak, hk, hak2] using ih

/-- After `gContextDataMap[context]` the map has the returned record. -/
theorem contextDataRef_find (context : Int) (s : State) :
    mapFind (contextDataRef context s).2.gContextDataMap context =
      some (contextDataRef context s).1 := by
  unfold contextDataRef
  cases h : mapFind s.gContextDataMap context with
  | some cd => simpa using h
  | none => simpa using mapFind_mapInsertSorted_self ltInt _ _ _ h

/-- The lookup `gContextDataMap[context]` leaves the other contexts alone. -/
theorem contextDataRef_find_ne (context c : Int) (s : State) (h : c ≠ context) :
    mapFind (contextDataRef context s).2.gContextDataMap c = mapFind s.gContextDataMap c := by
  unfold contextDataRef
  cases h2 : mapFind s.gContextDataMap context with
  | some cd => rfl
  | none => simpa using mapFind_mapInsertSorted_ne ltInt _ _ _ _ h

/-- The record `gContextDataMap[context]` returns is the stored one, or a
default constructed one. -/
theorem contextDataRef_fst (context : Int) (s : State) :
    (contextDataRef context s).1 = (mapFind s.gContextDataMap context).getD ContextData.new := by
  unfold contextDataRef
  cases h : mapFind s.gContextDataMap context <;> simp

theorem contextDataRef_gContext (context : Int) (s : State) :
    (contextDataRef context s).2.gContext = s.gContext := by
  unfold contextDataRef
  cases h : mapFind s.gContextDataMap context <;> rfl

theorem contextDataRef_trace (context : Int) (s : State) :
    (contextDataRef context s).2.trace = s.trace := by
  unfold contextDataRef
  cases h : mapFind s.gContextDataMap context <;> rfl

theorem contextDataRef_heap (context : Int) (s : State) :
    (contextDataRef context s).2.heap = s.heap := by
  unfold contextDataRef
  cases h : mapFind s.gContextDataMap context <;> rfl

/-- A record inserted by `gContextDataMap[context]` holds no buffer, so the
cached buffer pointers read the same before and after. -/
theorem contextDataRef_buffer (context c : Int) (t : OffscreenType) (s : State) :
    (contextDataRef context s).2.buffer c t = s.buffer c t := by
  by_cases h : c = context
  · subst h
    unfold State.buffer
    rw [contextDataRef_find, contextDataRef_fst]
    cases h2 : mapFind s.gContextDataMap c with
    | some cd => rfl
    | none => cases t <;> rfl
  · unfold State.buffer
    rw [contextDataRef_find_ne _ _ _ h]

theorem contextDataRef_fst_buffer (context : Int) (t : OffscreenType) (s : State) :
    (contextDataRef context s).1.buffer t = s.buffer context t := by
  unfold State.buffer
  rw [contextDataRef_fst]
  cases h2 : mapFind s.gContextDataMap context with
  | some cd => rfl
  | none => cases t <;> rfl

/-- The loop over `idFP` issues one `glDeleteProgramsARB` per entry, in
iteration order, and changes nothing else. -/
theorem deleteProgramsLoop_trace (m : List (Nat × GLuint)) (s : State) :
    (deleteProgramsLoop m s).trace = s.trace ++ m.map (fun e => Event.glDeleteProgramsARB e.2) ∧
    (deleteProgramsLoop m s).gContext = s.gContext ∧
    (deleteProgramsLoop m s).gContextDataMap = s.gContextDataMap ∧
    (deleteProgramsLoop m s).heap = s.heap := by
  induction m generalizing s with
  | nil => simp [deleteProgramsLoop]
  | cons e m ih =>
    obtain ⟨h1, h2, h3, h4⟩ := ih (s.emit (.glDeleteProgramsARB e.2))
    refine ⟨?_, ?_, ?_, ?_⟩
    · rw [deleteProgramsLoop, h1]; simp [State.emit]
    · rw [deleteProgramsLoop, h2]; rfl
    · rw [deleteProgramsLoop, h3]; rfl
    · rw [deleteProgramsLoop, h4]; rfl

/-! ### C8 -/

/-- C8 (evaluated at the failing input): after `getShaderProgram` in a fresh
process the record of context 0 caches the shaders 1 and 5 in `idFP` and the
linked program 9 in `idShaderProg`.  `freeResources` then removes the record
and issues `glDeleteProgramsARB` for 1 and 5 only: no delete call is issued
for the linked program 9. -/
theorem freeResources_skips_linked_programs :
    mapFind (getShaderProgram (Env.sample false false 1) ⟨100, []⟩ ⟨200, []⟩
        State.init).2.gContextDataMap 0 =
      some { fARB := 0, fEXT := 0, idFP := [(100, 1), (200, 5)],
             idShaderProg := [((1, 5), 9)] } ∧
    (freeResources (getShaderProgram (Env.sample false false 1) ⟨100, []⟩ ⟨200, []⟩
        State.init).2).trace =
      (getShaderProgram (Env.sample false false 1) ⟨100, []⟩ ⟨200, []⟩ State.init).2.trace ++
        [.glDeleteProgramsARB 1, .glDeleteProgramsARB 5] ∧
    Event.glDeleteProgramsARB 9 ∉
      (freeResources (getShaderProgram (Env.sample false false 1) ⟨100, []⟩ ⟨200, []⟩
        State.init).2).trace ∧
    mapFind (freeResources (getShaderProgram (Env.sample false false 1) ⟨100, []⟩ ⟨200, []⟩
        State.init).2).gContextDataMap 0 = none := by
  decide

/-! ### Shared lemmas on the offscreen buffers -/

theorem buffer_setContextData (s : State) (c c' : Int) (cd : ContextData) (t : OffscreenType) :
    (s.setContextData c cd).buffer c' t =
      if c' = c then
        (match mapFind s.gContextDataMap c with
          | some _ => cd.buffer t
          | none => 0)
      else s.buffer c' t := by
  unfold State.buffer State.setContextData
  simp only [mapFind_mapSet]
  by_cases h : c' = c
  · subst h
    cases h2 : mapFind s.gContextDataMap c' <;> simp
  · simp [h]

theorem NoBufferEffect.refl (s : State) : NoBufferEffect s s :=
  ⟨rfl, rfl, fun _ _ => rfl, [], by simp, fun t => by cases t <;> rfl⟩

theorem countNew_append (t : OffscreenType) (xs ys : List Event) :
    countNew t (xs ++ ys) = countNew t xs + countNew t ys := by
  simp [countNew]

theorem NoBufferEffect.trans {s1 s2 s3 : State} (h12 : NoBufferEffect s1 s2)
    (h23 : NoBufferEffect s2 s3) : NoBufferEffect s1 s3 := by
  obtain ⟨a1, a2, a3, x, a4, a5⟩ := h12
  obtain ⟨b1, b2, b3, y, b4, b5⟩ := h23
  refine ⟨by rw [b1, a1], by rw [b2, a2], fun c t => by rw [b3, a3], x ++ y, ?_, ?_⟩
  · rw [b4, a4, List.append_assoc]
  · intro t; rw [countNew_append, a5, b5]

/-- The lookup `gContextDataMap[context]` touches no offscreen buffer. -/
theorem contextDataRef_noBufferEffect (context : Int) (s : State) :
    NoBufferEffect s (contextDataRef context s).2 :=
  ⟨contextDataRef_gContext _ _, contextDataRef_heap _ _,
    fun c t => contextDataRef_buffer _ c t s, [],
    by simp [contextDataRef_trace], fun t => by cases t <;> rfl⟩

/-- Replacing the record of `context` by one with the same two buffer
pointers touches no offscreen buffer. -/
theorem setContextData_noBufferEffect (s : State) (context : Int) (cd cd' : ContextData)
    (hfind : mapFind s.gContextDataMap context = some cd)
    (hARB : cd'.fARB = cd.fARB) (hEXT : cd'.fEXT = cd.fEXT) :
    NoBufferEffect s (s.setContextData context cd') := by
  refine ⟨rfl, rfl, ?_, [], by simp [State.setContextData], fun t => by cases t <;> rfl⟩
  intro c t
  rw [buffer_setContextData]
  by_cases h : c = context
  · subst h
    simp only [hfind, if_true]
    unfold State.buffer
    rw [hfind]
    cases t <;> simp [ContextData.buffer, hARB, hEXT]
  · simp [h]

/-- Appending calls that construct no buffer touches no offscreen buffer. -/
theorem emit_noBufferEffect (s : State) (e : Event) (h : ∀ t, countNew t [e] = 0) :
    NoBufferEffect s (s.emit e) :=
  ⟨rfl, rfl, fun _ _ => rfl, [e], rfl, h⟩

/-- A cache hit: when the active context already holds a buffer of the
requested type, `getOffscreenBuffer` returns it and changes nothing. -/
theorem getOffscreenBuffer_hit (env : Env) (t : OffscreenType) (s : State)
    (h : s.buffer s.gContext t ≠ 0) :
    getOffscreenBuffer env t s = (s.buffer s.gContext t, s) := by
  unfold State.buffer at h ⊢
  cases hf : mapFind s.gContextDataMap s.gContext with
  | none => simp [hf] at h
  | some cd =>
    rw [hf] at h
    have hr : contextDataRef s.gContext s = (cd, s) := by
      unfold contextDataRef; rw [hf]
    cases t with
    | FrameBufferObjectARB =>
      have : cd.fARB ≠ 0 := h
      simp [getOffscreenBuffer, getContext, hr, this, ContextData.buffer]
    | FrameBufferObjectEXT =>
      have : cd.fEXT ≠ 0 := h
      simp [getOffscreenBuffer, getContext, hr, this, ContextData.buffer]
    | other code => exact absurd rfl h

/-- A cache miss on a supported type: one object is constructed at the
address `new` returns, it becomes live, and it is stored for the active
context and the requested type only. -/
theorem getOffscreenBuffer_miss (env : Env) (t : OffscreenType) (s : State)
    (ht : t = .FrameBufferObjectARB ∨ t = .FrameBufferObjectEXT)
    (h : s.buffer s.gContext t = 0) :
    (getOffscreenBuffer env t s).1 = env.operatorNew s.heap ∧
    (getOffscreenBuffer env t s).2.gContext = s.gContext ∧
    (getOffscreenBuffer env t s).2.heap = env.operatorNew s.heap :: s.heap ∧
    (∃ e, (getOffscreenBuffer env t s).2.trace = s.trace ++ [e] ∧
      ∀ t', countNew t' [e] = if t' = t then 1 else 0) ∧
    ∀ c t', (getOffscreenBuffer env t s).2.buffer c t' =
      if c = s.gContext ∧ t' = t then env.operatorNew s.heap else s.buffer c t' := by
  have hfind := contextDataRef_find s.gContext s
  have hbuf := contextDataRef_fst_buffer s.gContext t s
  have hothers := fun c t' => contextDataRef_buffer s.gContext c t' s
  have hfst := fun t' => contextDataRef_fst_buffer s.gContext t' s
  have hheap := contextDataRef_heap s.gContext s
  have htrace := contextDataRef_trace s.gContext s
  have hctx := contextDataRef_gContext s.gContext s
  rw [h] at hbuf
  rcases ht with ht | ht
  · subst ht
    have h0 : (contextDataRef s.gContext s).1.fARB = 0 := hbuf
    unfold getOffscreenBuffer getContext
    simp only [h0, if_true]
    refine ⟨by rw [hheap], ?_, ?_, ⟨.newFrameBufferObject (env.operatorNew s.heap), ?_, ?_⟩, ?_⟩
    · simpa [State.setContextData, State.emit] using hctx
    · simp [State.setContextData, State.emit, hheap]
    · simp only [State.setContextData, State.emit, htrace, hheap]
    · intro t'; cases t' <;> simp [countNew]
    · intro c t'
      rw [buffer_setContextData]
      by_cases hc : c = s.gContext
      · subst hc
        have hfind' : mapFind (contextDataRef s.gContext s).2.gContextDataMap s.gContext =
            some (contextDataRef s.gContext s).1 := hfind
        simp only [State.emit, hfind', if_true, true_and]
        cases t' with
        | FrameBufferObjectARB => simp [ContextData.buffer, hheap]
        | FrameBufferObjectEXT =>
          have := hfst .FrameBufferObjectEXT
          simpa [ContextData.buffer] using this
        | other code =>
          have := hfst (.other code)
          simpa [ContextData.buffer] using this
      · have := hothers c t'
        simpa [hc, State.emit, State.buffer] using this
  · subst ht
    have h0 : (contextDataRef s.gContext s).1.fEXT = 0 := hbuf
    unfold getOffscreenBuffer getContext
    simp only [h0, if_true]
    refine ⟨by rw [hheap], ?_, ?_, ⟨.newFrameBufferObjectExt (env.operatorNew s.heap), ?_, ?_⟩, ?_⟩
    · simpa [State.setContextData, State.emit] using hctx
    · simp [State.setContextData, State.emit, hheap]
    · simp only [State.setContextData, State.emit, htrace, hheap]
    · intro t'; cases t' <;> simp [countNew]
    · intro c t'
      rw [buffer_setContextData]
      by_cases hc : c = s.gContext
      · subst hc
        have hfind' : mapFind (contextDataRef s.gContext s).2.gContextDataMap s.gContext =
            some (contextDataRef s.gContext s).1 := hfind
        simp only [State.emit, hfind', if_true, true_and]
        cases t' with
        | FrameBufferObjectARB =>
          have := hfst .FrameBufferObjectARB
          simpa [ContextData.buffer] using this
        | FrameBufferObjectEXT => simp [ContextData.buffer, hheap]
        | other code =>
          have := hfst (.other code)
          simpa [ContextData.buffer] using this
      · have := hothers c t'
        simpa [hc, State.emit, State.buffer] using this

/-- An unsupported type: the null pointer is returned and no buffer is
touched. -/
theorem getOffscreenBuffer_other (env : Env) (code : Int) (s : State) :
    (getOffscreenBuffer env (.other code) s).1 = 0 ∧
    NoBufferEffect s (getOffscreenBuffer env (.other code) s).2 :=
  ⟨rfl, contextDataRef_noBufferEffect _ _⟩

/-- One more recorded call that constructs no buffer. -/
theorem NoBufferEffect.emit {s s' : State} (h : NoBufferEffect s s') (e : Event)
    (he : ∀ t, countNew t [e] = 0) : NoBufferEffect s (s'.emit e) :=
  h.trans (emit_noBufferEffect s' e he)

/-- `getARBProgram` touches no offscreen buffer. -/
theorem getARBProgram_noBufferEffect (env : Env) (target : GLenum) (prog : CStr) (len : Int)
    (s : State) : NoBufferEffect s (getARBProgram env target prog len s).2 := by
  have h0 := contextDataRef_noBufferEffect s.gContext s
  have hfind := contextDataRef_find s.gContext s
  unfold getARBProgram getContext
  cases hf : mapFind (contextDataRef s.gContext s).1.idFP prog.addr with
  | some id => simpa [hf] using h0
  | none =>
    simp only [hf]
    refine NoBufferEffect.trans ?_
      (setContextData_noBufferEffect _ _ (contextDataRef s.gContext s).1 _ hfind rfl rfl)
    exact ((h0.emit _ fun t => by cases t <;> rfl).emit _ fun t => by cases t <;> rfl).emit _
      fun t => by cases t <;> rfl

/-- The native calls of a shader compilation construct no buffer and keep
the context records. -/
theorem shaderCalls_noBufferEffect (s0 : State) (target : GLenum) (id : GLuint) (prog : CStr)
    (ok : Bool) (log : List Nat) :
    NoBufferEffect s0
      (if ok = true then
        (((s0.emit (.glCreateShader target id)).emit (.glShaderSource id prog)).emit
          (.glCompileShader id)).emit (.glGetShaderiv id ok)
      else
        ((((((s0.emit (.glCreateShader target id)).emit (.glShaderSource id prog)).emit
          (.glCompileShader id)).emit (.glGetShaderiv id ok)).emit
          (.glGetShaderInfoLog id)).emit (.cerrCompilationFailed target log))) ∧
    (if ok = true then
        (((s0.emit (.glCreateShader target id)).emit (.glShaderSource id prog)).emit
          (.glCompileShader id)).emit (.glGetShaderiv id ok)
      else
        ((((((s0.emit (.glCreateShader target id)).emit (.glShaderSource id prog)).emit
          (.glCompileShader id)).emit (.glGetShaderiv id ok)).emit
          (.glGetShaderInfoLog id)).emit (.cerrCompilationFailed target log))).gContextDataMap
      = s0.gContextDataMap := by
  have h0 := NoBufferEffect.refl s0
  cases ok
  · refine ⟨?_, rfl⟩
    exact (((((h0.emit _ fun t => by cases t <;> rfl).emit _ fun t => by cases t <;> rfl).emit _
      fun t => by cases t <;> rfl).emit _ fun t => by cases t <;> rfl).emit _
      fun t => by cases t <;> rfl).emit _ fun t => by cases t <;> rfl
  · refine ⟨?_, rfl⟩
    exact (((h0.emit _ fun t => by cases t <;> rfl).emit _ fun t => by cases t <;> rfl).emit _
      fun t => by cases t <;> rfl).emit _ fun t => by cases t <;> rfl

/-- The native calls of a program link construct no buffer and keep the
context records. -/
theorem programCalls_noBufferEffect (s0 : State) (id vertId fragId : GLuint)
    (ok : Bool) (log : List Nat) :
    NoBufferEffect s0
      (if ok = true then
        ((((s0.emit (.glCreateProgram id)).emit (.glAttachShader id vertId)).emit
          (.glAttachShader id fragId)).emit (.glLinkProgram id)).emit (.glGetProgramiv id ok)
      else
        (((((((s0.emit (.glCreateProgram id)).emit (.glAttachShader id vertId)).emit
          (.glAttachShader id fragId)).emit (.glLinkProgram id)).emit
          (.glGetProgramiv id ok)).emit (.glGetProgramInfoLog id)).emit (.cerrLinkFailed log))) ∧
    (if ok = true then
        ((((s0.emit (.glCreateProgram id)).emit (.glAttachShader id vertId)).emit
          (.glAttachShader id fragId)).emit (.glLinkProgram id)).emit (.glGetProgramiv id ok)
      else
        (((((((s0.emit (.glCreateProgram id)).emit (.glAttachShader id vertId)).emit
          (.glAttachShader id fragId)).emit (.glLinkProgram id)).emit
          (.glGetProgramiv id ok)).emit (.glGetProgramInfoLog id)).emit
          (.cerrLinkFailed log))).gContextDataMap
      = s0.gContextDataMap := by
  have h0 := NoBufferEffect.refl s0
  cases ok
  · refine ⟨?_, rfl⟩
    exact ((((((h0.emit _ fun t => by cases t <;> rfl).emit _ fun t => by cases t <;> rfl).emit _
      fun t => by cases t <;> rfl).emit _ fun t => by cases t <;> rfl).emit _
      fun t => by cases t <;> rfl).emit _ fun t => by cases t <;> rfl).emit _
      fun t => by cases t <;> rfl
  · refine ⟨?_, rfl⟩
    exact ((((h0.emit _ fun t => by cases t <;> rfl).emit _ fun t => by cases t <;> rfl).emit _
      fun t => by cases t <;> rfl).emit _ fun t => by cases t <;> rfl).emit _
      fun t => by cases t <;> rfl

/-- `getShader` touches no offscreen buffer. -/
theorem getShader_noBufferEffect (env : Env) (target : GLenum) (prog : CStr) (s : State) :
    NoBufferEffect s (getShader env target prog s).2 := by
  have h0 := contextDataRef_noBufferEffect s.gContext s
  have hfind := contextDataRef_find s.gContext s
  unfold getShader getContext
  cases hf : mapFind (contextDataRef s.gContext s).1.idFP prog.addr with
  | some id => simpa [hf] using h0
  | none =>
    simp only [hf]
    have hc := shaderCalls_noBufferEffect (contextDataRef s.gContext s).2 target
      (env.glCreateShader (contextDataRef s.gContext s).2.trace target) prog
    refine NoBufferEffect.trans (h0.trans (hc _ _).1)
      (setContextData_noBufferEffect _ _ (contextDataRef s.gContext s).1 _ ?_ rfl rfl)
    rw [(hc _ _).2]
    exact hfind

/-- `getProgram` touches no offscreen buffer. -/
theorem getProgram_noBufferEffect (env : Env) (vertId fragId : GLuint) (s : State) :
    NoBufferEffect s (getProgram env vertId fragId s).2 := by
  have h0 := contextDataRef_noBufferEffect s.gContext s
  have hfind := contextDataRef_find s.gContext s
  unfold getProgram getContext
  cases hf : mapFind (contextDataRef s.gContext s).1.idShaderProg (vertId, fragId) with
  | some id => simpa [hf] using h0
  | none =>
    simp only [hf]
    have hc := programCalls_noBufferEffect (contextDataRef s.gContext s).2
      (env.glCreateProgram (contextDataRef s.gContext s).2.trace) vertId fragId
    refine NoBufferEffect.trans (h0.trans (hc _ _).1)
      (setContextData_noBufferEffect _ _ (contextDataRef s.gContext s).1 _ ?_ rfl rfl)
    rw [(hc _ _).2]
    exact hfind

/-- `getShaderProgram` touches no offscreen buffer. -/
theorem getShaderProgram_noBufferEffect (env : Env) (vert frag : CStr) (s : State) :
    NoBufferEffect s (getShaderProgram env vert frag s).2 := by
  unfold getShaderProgram getVertexShader getFragmentShader
  exact ((getShader_noBufferEffect env _ vert s).trans
    (getShader_noBufferEffect env _ frag _)).trans (getProgram_noBufferEffect env _ _ _)

/-- Two consecutive requests for a supported type: the first returns a
non-null pointer, which is then the cached one. -/
theorem getOffscreenBuffer_cached (env : Env) (hnew : ∀ live, env.operatorNew live ≠ 0)
    (t : OffscreenType) (ht : t = .FrameBufferObjectARB ∨ t = .FrameBufferObjectEXT)
    (s : State) :
    (getOffscreenBuffer env t s).1 ≠ 0 ∧
    (getOffscreenBuffer env t s).2.gContext = s.gContext ∧
    (getOffscreenBuffer env t s).2.buffer s.gContext t = (getOffscreenBuffer env t s).1 := by
  by_cases h : s.buffer s.gContext t = 0
  · obtain ⟨h1, h2, _, _, h5⟩ := getOffscreenBuffer_miss env t s ht h
    refine ⟨by rw [h1]; exact hnew _, h2, ?_⟩
    rw [h5, h1]; simp
  · rw [getOffscreenBuffer_hit env t s h]
    exact ⟨h, rfl, rfl⟩

/-- What one call other than `freeResources` does to the construction count
of a context and type: it constructs at most one buffer, only when none was
cached, and a cached buffer stays cached. -/
theorem run_constructions_step (env : Env) (hnew : ∀ live, env.operatorNew live ≠ 0)
    (op : Op) (hop : op ≠ Op.freeResources) (s : State) (c : Int) (t : OffscreenType) :
    (if getContext s = c then countNew t ((op.run env s).trace.drop s.trace.length) else 0)
      + (if (op.run env s).buffer c t = 0 then 1 else 0)
      ≤ (if s.buffer c t = 0 then 1 else 0) := by
  have key : ∀ s' : State, NoBufferEffect s s' →
      (if getContext s = c then countNew t (s'.trace.drop s.trace.length) else 0)
        + (if s'.buffer c t = 0 then 1 else 0) ≤ (if s.buffer c t = 0 then 1 else 0) := by
    intro s' h
    obtain ⟨_, _, h3, added, h4, h5⟩ := h
    rw [h3, h4, List.drop_left, h5]
    simp
  cases op with
  | setContext c' =>
    have : (Op.run env (.setContext c') s).trace.drop s.trace.length = [] := by
      show s.trace.drop s.trace.length = []
      simp
    rw [this]
    have hb : (Op.run env (.setContext c') s).buffer c t = s.buffer c t := rfl
    rw [hb]
    have : countNew t [] = 0 := by cases t <;> rfl
    simp [this]
  | getARBProgram target prog len => exact key _ (getARBProgram_noBufferEffect env _ _ _ s)
  | getShader target prog => exact key _ (getShader_noBufferEffect env _ _ s)
  | getProgram v f => exact key _ (getProgram_noBufferEffect env _ _ s)
  | getShaderProgram v f => exact key _ (getShaderProgram_noBufferEffect env _ _ s)
  | freeResources => exact absurd rfl hop
  | getOffscreenBuffer t0 =>
    have hsup : (t0 = .FrameBufferObjectARB ∨ t0 = .FrameBufferObjectEXT) ∨
        ∃ code, t0 = .other code := by
      cases t0 with
      | FrameBufferObjectARB => exact Or.inl (Or.inl rfl)
      | FrameBufferObjectEXT => exact Or.inl (Or.inr rfl)
      | other code => exact Or.inr ⟨code, rfl⟩
    rcases hsup with ht0 | ⟨code, rfl⟩
    · by_cases hm : s.buffer s.gContext t0 = 0
      · obtain ⟨_, _, _, ⟨e, he1, he2⟩, h5⟩ := getOffscreenBuffer_miss env t0 s ht0 hm
        show (if getContext s = c then
            countNew t ((getOffscreenBuffer env t0 s).2.trace.drop s.trace.length) else 0)
          + (if (getOffscreenBuffer env t0 s).2.buffer c t = 0 then 1 else 0)
          ≤ (if s.buffer c t = 0 then 1 else 0)
        rw [he1, List.drop_left, he2, h5]
        by_cases hc : c = s.gContext
        · subst hc
          by_cases htt : t = t0
          · subst htt
            simp [getContext, hm, hnew]
          · simp [getContext, htt]
        · have hc2 : ¬ getContext s = c := fun h => hc h.symm
          simp [hc, hc2]
      · have : Op.run env (.getOffscreenBuffer t0) s = s := by
          show (getOffscreenBuffer env t0 s).2 = s
          rw [getOffscreenBuffer_hit env t0 s hm]
        rw [this]
        exact key s (NoBufferEffect.refl s)
    · exact key _ (getOffscreenBuffer_other env code s).2

/-- Over calls without `freeResources`, a context constructs a buffer of a
type at most once, and not at all when it already caches one. -/
theorem constructions_le (env : Env) (hnew : ∀ live, env.operatorNew live ≠ 0)
    (t : OffscreenType) (c : Int) (ops : List Op) (hops : ∀ op ∈ ops, op ≠ Op.freeResources)
    (s : State) :
    constructions env t c ops s ≤ (if s.buffer c t = 0 then 1 else 0) := by
  induction ops generalizing s with
  | nil => simp [constructions]
  | cons op ops ih =>
    have hstep := run_constructions_step env hnew op (hops op (List.mem_cons_self _ _)) s c t
    have hrest := ih (fun o ho => hops o (List.mem_cons_of_mem _ ho)) (op.run env s)
    unfold constructions
    omega

/-! ### C9 -/

/-- C9: under any active context id and for each of the two supported types,
the first `getOffscreenBuffer` returns a (non-null) object, a second
consecutive call returns the identical pointer and leaves the state exactly
as it was, so it constructs nothing; and over any sequence of calls that
contains no `freeResources`, at most one buffer of the type is constructed
while that context is active.  `new` is assumed never to return null. -/
theorem getOffscreenBuffer_idempotent (env : Env) (hnew : ∀ live, env.operatorNew live ≠ 0)
    (context : Int) (t : OffscreenType)
    (ht : t = .FrameBufferObjectARB ∨ t = .FrameBufferObjectEXT)
    (s : State) (ops : List Op) (hops : ∀ op ∈ ops, op ≠ Op.freeResources) :
    (getOffscreenBuffer env t (getOffscreenBuffer env t (setContext context s)).2).1 =
      (getOffscreenBuffer env t (setContext context s)).1 ∧
    (getOffscreenBuffer env t (setContext context s)).1 ≠ 0 ∧
    (getOffscreenBuffer env t (getOffscreenBuffer env t (setContext context s)).2).2 =
      (getOffscreenBuffer env t (setContext context s)).2 ∧
    constructions env t context ops s ≤ 1 := by
  obtain ⟨h1, h2, h3⟩ := getOffscreenBuffer_cached env hnew t ht (setContext context s)
  have hb : (getOffscreenBuffer env t (setContext context s)).2.buffer
      (getOffscreenBuffer env t (setContext context s)).2.gContext t ≠ 0 := by
    rw [h2, h3]; exact h1
  have hhit := getOffscreenBuffer_hit env t _ hb
  rw [h2, h3] at hhit
  refine ⟨by rw [hhit], h1, by rw [hhit], ?_⟩
  have := constructions_le env hnew t context ops hops s
  split at this <;> omega

/-- C9 witness: a fresh process, contexts 0 and 1, the ARB buffer type. -/
theorem getOffscreenBuffer_idempotent_witness :
    (getOffscreenBuffer (Env.sample false false 1) .FrameBufferObjectARB
        (getOffscreenBuffer (Env.sample false false 1) .FrameBufferObjectARB
          (setContext 0 State.init)).2).1 =
      (getOffscreenBuffer (Env.sample false false 1) .FrameBufferObjectARB
        (setContext 0 State.init)).1 ∧
    (getOffscreenBuffer (Env.sample false false 1) .FrameBufferObjectARB
        (setContext 0 State.init)).1 ≠ 0 ∧
    (getOffscreenBuffer (Env.sample false false 1) .FrameBufferObjectARB
        (getOffscreenBuffer (Env.sample false false 1) .FrameBufferObjectARB
          (setContext 0 State.init)).2).2 =
      (getOffscreenBuffer (Env.sample false false 1) .FrameBufferObjectARB
        (setContext 0 State.init)).2 ∧
    constructions (Env.sample false false 1) .FrameBufferObjectARB 0
      [.getOffscreenBuffer .FrameBufferObjectARB, .setContext 1,
       .getOffscreenBuffer .FrameBufferObjectARB, .setContext 0,
       .getOffscreenBuffer .FrameBufferObjectARB, .getOffscreenBuffer .FrameBufferObjectEXT]
      State.init ≤ 1 :=
  getOffscreenBuffer_idempotent (Env.sample false false 1) (fun _ => Nat.succ_ne_zero _) 0
    .FrameBufferObjectARB (Or.inl rfl) State.init _ (by decide)

/-! ### Shared lemmas on exclusive ownership -/

/-- Without a record for the active context `freeResources` does nothing. -/
theorem freeResources_none (s : State) (hf : mapFind s.gContextDataMap s.gContext = none) :
    freeResources s = s := by
  simp [freeResources, getContext, hf]

/-- With a record `cd` for the active context `freeResources` deletes the two
buffers, runs the loop over `idFP` and erases the record. -/
theorem freeResources_some (s : State) (cd : ContextData)
    (hf : mapFind s.gContextDataMap s.gContext = some cd) :
    freeResources s =
      { deleteProgramsLoop cd.idFP
          (deleteFrameBufferObjectExt cd.fEXT (deleteFrameBufferObject cd.fARB s)) with
        gContextDataMap :=
          mapErase (deleteProgramsLoop cd.idFP
            (deleteFrameBufferObjectExt cd.fEXT
              (deleteFrameBufferObject cd.fARB s))).gContextDataMap s.gContext } := by
  simp [freeResources, getContext, hf]

/-- The calls `freeResources` issues for a context that has a record `cd`:
the two buffer deletions (skipped for null pointers) and one
`glDeleteProgramsARB` per entry of `idFP`.  The entries of `idShaderProg` do
not occur: no call is issued for them. -/
theorem freeResources_trace (s : State) (cd : ContextData)
    (hf : mapFind s.gContextDataMap s.gContext = some cd) :
    (freeResources s).trace =
      s.trace ++ (if cd.fARB = 0 then [] else [Event.deleteFrameBufferObject cd.fARB])
        ++ (if cd.fEXT = 0 then [] else [Event.deleteFrameBufferObjectExt cd.fEXT])
        ++ cd.idFP.map (fun e => Event.glDeleteProgramsARB e.2) := by
  rw [freeResources_some s cd hf]
  show (deleteProgramsLoop cd.idFP _).trace = _
  rw [(deleteProgramsLoop_trace cd.idFP _).1]
  unfold deleteFrameBufferObjectExt deleteFrameBufferObject
  by_cases h1 : cd.fARB = 0 <;> by_cases h2 : cd.fEXT = 0 <;> simp [h1, h2, State.emit]

/-- What `freeResources` does to the buffers: the active context caches none
afterwards, the other contexts keep theirs, and only the two buffers of the
active context stop being live. -/
theorem freeResources_buffers (s : State) :
    (freeResources s).gContext = s.gContext ∧
    (∀ c t, (freeResources s).buffer c t = if c = s.gContext then 0 else s.buffer c t) ∧
    (∀ q, q ∈ s.heap → q ≠ s.buffer s.gContext .FrameBufferObjectARB →
      q ≠ s.buffer s.gContext .FrameBufferObjectEXT → q ∈ (freeResources s).heap) := by
  cases hf : mapFind s.gContextDataMap s.gContext with
  | none =>
    rw [freeResources_none s hf]
    refine ⟨rfl, ?_, fun q hq _ _ => hq⟩
    intro c t
    by_cases hc : c = s.gContext
    · subst hc; simp [State.buffer, hf]
    · simp [hc]
  | some cd =>
    rw [freeResources_some s cd hf]
    obtain ⟨_, h2, h3, h4⟩ := deleteProgramsLoop_trace cd.idFP
      (deleteFrameBufferObjectExt cd.fEXT (deleteFrameBufferObject cd.fARB s))
    have hmap : (deleteFrameBufferObjectExt cd.fEXT
        (deleteFrameBufferObject cd.fARB s)).gContextDataMap = s.gContextDataMap := by
      unfold deleteFrameBufferObjectExt deleteFrameBufferObject
      by_cases h1 : cd.fARB = 0 <;> by_cases h2 : cd.fEXT = 0 <;> simp [h1, h2, State.emit]
    have hctx : (deleteFrameBufferObjectExt cd.fEXT
        (deleteFrameBufferObject cd.fARB s)).gContext = s.gContext := by
      unfold deleteFrameBufferObjectExt deleteFrameBufferObject
      by_cases h1 : cd.fARB = 0 <;> by_cases h2 : cd.fEXT = 0 <;> simp [h1, h2, State.emit]
    have hheap : ∀ q, q ∈ s.heap → q ≠ cd.fARB → q ≠ cd.fEXT →
        q ∈ (deleteFrameBufferObjectExt cd.fEXT (deleteFrameBufferObject cd.fARB s)).heap := by
      intro q hq hq1 hq2
      unfold deleteFrameBufferObjectExt deleteFrameBufferObject
      by_cases h1 : cd.fARB = 0 <;> by_cases h2 : cd.fEXT = 0 <;>
        simp [h1, h2, State.emit, hq, hq1, hq2]
    refine ⟨by simp only [h2, hctx], ?_, ?_⟩
    · intro c t
      simp only [State.buffer, h3, hmap, mapFind_mapErase]
      by_cases hc : c = s.gContext <;> simp [hc]
    · intro q hq hq1 hq2
      simp only [h4]
      apply hheap q hq
      · simpa [State.buffer, hf, ContextData.buffer] using hq1
      · simpa [State.buffer, hf, ContextData.buffer] using hq2

/-- A step without effect on the buffers keeps exclusive ownership. -/
theorem NoBufferEffect.wf {s s' : State} (h : NoBufferEffect s s') (hwf : s.WF) : s'.WF := by
  obtain ⟨_, h2, h3, _⟩ := h
  obtain ⟨w1, w2⟩ := hwf
  refine ⟨fun c t hb => ?_, fun c1 t1 c2 t2 hc hb => ?_⟩
  · rw [h3] at hb ⊢; rw [h2]; exact w1 c t hb
  · rw [h3] at hb; rw [h3, h3]; exact w2 c1 t1 c2 t2 hc hb

/-- The request `getOffscreenBuffer` keeps exclusive ownership, because `new`
returns an address that is not live. -/
theorem getOffscreenBuffer_wf (env : Env) (halloc : env.AllocatorOK) (t0 : OffscreenType)
    (s : State) (hwf : s.WF) : (getOffscreenBuffer env t0 s).2.WF := by
  have hsup : (t0 = .FrameBufferObjectARB ∨ t0 = .FrameBufferObjectEXT) ∨
      ∃ code, t0 = .other code := by
    cases t0 with
    | FrameBufferObjectARB => exact Or.inl (Or.inl rfl)
    | FrameBufferObjectEXT => exact Or.inl (Or.inr rfl)
    | other code => exact Or.inr ⟨code, rfl⟩
  rcases hsup with ht0 | ⟨code, rfl⟩
  · by_cases hm : s.buffer s.gContext t0 = 0
    · obtain ⟨_, _, h3, _, h5⟩ := getOffscreenBuffer_miss env t0 s ht0 hm
      obtain ⟨w1, w2⟩ := hwf
      obtain ⟨hp0, hpf⟩ := halloc s.heap
      refine ⟨fun c t hb => ?_, fun c1 t1 c2 t2 hc hb => ?_⟩
      · rw [h3]
        rw [h5] at hb ⊢
        by_cases hct : c = s.gContext ∧ t = t0
        · simp [hct]
        · simp only [hct, if_false] at hb ⊢
          exact List.mem_cons_of_mem _ (w1 c t hb)
      · rw [h5] at hb
        rw [h5, h5]
        by_cases hct1 : c1 = s.gContext ∧ t1 = t0
        · have hct2 : ¬ (c2 = s.gContext ∧ t2 = t0) := fun h => hc (hct1.1.trans h.1.symm)
          simp only [hct1, hct2, and_self, if_true, if_false]
          intro heq
          have hb2 : s.buffer c2 t2 ≠ 0 := by rw [← heq]; exact hp0
          exact hpf (heq ▸ w1 c2 t2 hb2)
        · simp only [hct1, if_false] at hb ⊢
          by_cases hct2 : c2 = s.gContext ∧ t2 = t0
          · simp only [hct2, and_self, if_true]
            intro heq
            exact hpf (heq ▸ w1 c1 t1 hb)
          · simp only [hct2, if_false]
            exact w2 c1 t1 c2 t2 hc hb
    · rw [getOffscreenBuffer_hit env t0 s hm]; exact hwf
  · exact (getOffscreenBuffer_other env code s).2.wf hwf

/-- The teardown `freeResources` keeps exclusive ownership. -/
theorem freeResources_wf (s : State) (hwf : s.WF) : (freeResources s).WF := by
  obtain ⟨_, hb, hh⟩ := freeResources_buffers s
  obtain ⟨w1, w2⟩ := hwf
  refine ⟨fun c t hne => ?_, fun c1 t1 c2 t2 hc hne => ?_⟩
  · rw [hb] at hne ⊢
    by_cases hcs : c = s.gContext
    · simp [hcs] at hne
    · simp only [hcs, if_false] at hne ⊢
      exact hh _ (w1 c t hne) (w2 c t _ _ hcs hne) (w2 c t _ _ hcs hne)
  · rw [hb] at hne
    rw [hb, hb]
    by_cases hcs : c1 = s.gContext
    · simp [hcs] at hne
    · simp only [hcs, if_false] at hne ⊢
      by_cases hcs2 : c2 = s.gContext
      · simpa [hcs2] using hne
      · simpa [hcs2] using w2 c1 t1 c2 t2 hc hne

/-- Every call keeps exclusive ownership. -/
theorem run_wf (env : Env) (halloc : env.AllocatorOK) (op : Op) (s : State) (hwf : s.WF) :
    (op.run env s).WF := by
  cases op with
  | setContext c' => exact hwf
  | getOffscreenBuffer t0 => exact getOffscreenBuffer_wf env halloc t0 s hwf
  | getARBProgram target prog len => exact (getARBProgram_noBufferEffect env _ _ _ s).wf hwf
  | getShader target prog => exact (getShader_noBufferEffect env _ _ s).wf hwf
  | getProgram v f => exact (getProgram_noBufferEffect env _ _ s).wf hwf
  | getShaderProgram v f => exact (getShaderProgram_noBufferEffect env _ _ s).wf hwf
  | freeResources => exact freeResources_wf s hwf

/-- Every sequence of calls keeps exclusive ownership. -/
theorem runOps_wf (env : Env) (halloc : env.AllocatorOK) (ops : List Op) (s : State)
    (hwf : s.WF) : (runOps env ops s).WF := by
  induction ops generalizing s with
  | nil => exact hwf
  | cons op ops ih => exact ih _ (run_wf env halloc op s hwf)

/-- A fresh process caches no buffer. -/
theorem init_wf : State.init.WF :=
  ⟨fun _ _ h => absurd rfl h, fun _ _ _ _ _ h => absurd rfl h⟩

/-- A lookup keeps the active context and the buffers cached for every other
context. -/
theorem run_lookup_frame (env : Env) (op : Op) (hop : op.isLookup = true) (s : State) :
    (op.run env s).gContext = s.gContext ∧
    ∀ c t, c ≠ s.gContext → (op.run env s).buffer c t = s.buffer c t := by
  have key : ∀ s' : State, NoBufferEffect s s' →
      s'.gContext = s.gContext ∧ ∀ c t, c ≠ s.gContext → s'.buffer c t = s.buffer c t :=
    fun s' h => ⟨h.1, fun c t _ => h.2.2.1 c t⟩
  cases op with
  | setContext c' => simp [Op.isLookup] at hop
  | freeResources => simp [Op.isLookup] at hop
  | getARBProgram target prog len => exact key _ (getARBProgram_noBufferEffect env _ _ _ s)
  | getShader target prog => exact key _ (getShader_noBufferEffect env _ _ s)
  | getProgram v f => exact key _ (getProgram_noBufferEffect env _ _ s)
  | getShaderProgram v f => exact key _ (getShaderProgram_noBufferEffect env _ _ s)
  | getOffscreenBuffer t0 =>
    have hsup : (t0 = .FrameBufferObjectARB ∨ t0 = .FrameBufferObjectEXT) ∨
        ∃ code, t0 = .other code := by
      cases t0 with
      | FrameBufferObjectARB => exact Or.inl (Or.inl rfl)
      | FrameBufferObjectEXT => exact Or.inl (Or.inr rfl)
      | other code => exact Or.inr ⟨code, rfl⟩
    rcases hsup with ht0 | ⟨code, rfl⟩
    · by_cases hm : s.buffer s.gContext t0 = 0
      · obtain ⟨_, h2, _, _, h5⟩ := getOffscreenBuffer_miss env t0 s ht0 hm
        refine ⟨h2, fun c t hc => ?_⟩
        show (getOffscreenBuffer env t0 s).2.buffer c t = s.buffer c t
        rw [h5]; simp [hc]
      · have : Op.run env (.getOffscreenBuffer t0) s = s := by
          show (getOffscreenBuffer env t0 s).2 = s
          rw [getOffscreenBuffer_hit env t0 s hm]
        rw [this]
        exact ⟨rfl, fun _ _ _ => rfl⟩
    · exact key _ (getOffscreenBuffer_other env code s).2

/-- A sequence of lookups keeps the active context and the buffers cached
for every other context. -/
theorem runOps_lookup_frame (env : Env) (ops : List Op) (hops : ∀ op ∈ ops, op.isLookup = true)
    (s : State) :
    (runOps env ops s).gContext = s.gContext ∧
    ∀ c t, c ≠ s.gContext → (runOps env ops s).buffer c t = s.buffer c t := by
  induction ops generalizing s with
  | nil => exact ⟨rfl, fun _ _ _ => rfl⟩
  | cons op ops ih =>
    obtain ⟨h1, h2⟩ := run_lookup_frame env op (hops op (List.mem_cons_self _ _)) s
    obtain ⟨i1, i2⟩ := ih (fun o ho => hops o (List.mem_cons_of_mem _ ho)) (op.run env s)
    refine ⟨by rw [runOps, i1, h1], fun c t hc => ?_⟩
    rw [runOps, i2 c t (by rw [h1]; exact hc), h2 c t hc]

/-! ### C10 -/

/-- C10: in any state the process can reach, let `getOffscreenBuffer(type)`
under context `A` return `x`.  After `setContext(B)` with `B ≠ A`, any
sequence of lookups (offscreen buffer, ARB program, shader, linked program)
under `B`, and `setContext(A)`, the same request returns `x` again.  If `x` is
an object (not the null pointer an unsupported type yields), the request made
under `B` after those lookups returns a pointer different from `x`.  The
allocator is assumed to return non-null addresses of objects that are not
live. -/
theorem getOffscreenBuffer_per_context (env : Env) (halloc : env.AllocatorOK)
    (pre : List Op) (A B : Int) (hAB : A ≠ B) (t : OffscreenType)
    (ops : List Op) (hops : ∀ op ∈ ops, op.isLookup = true) :
    (getOffscreenBuffer env t (setContext A (runOps env ops (setContext B
        (getOffscreenBuffer env t (setContext A (runOps env pre State.init))).2)))).1 =
      (getOffscreenBuffer env t (setContext A (runOps env pre State.init))).1 ∧
    ((getOffscreenBuffer env t (setContext A (runOps env pre State.init))).1 ≠ 0 →
      (getOffscreenBuffer env t (runOps env ops (setContext B
        (getOffscreenBuffer env t (setContext A (runOps env pre State.init))).2))).1 ≠
      (getOffscreenBuffer env t (setContext A (runOps env pre State.init))).1) := by
  have hnew : ∀ live, env.operatorNew live ≠ 0 := fun live => (halloc live).1
  have hwf0 : (setContext A (runOps env pre State.init)).WF :=
    runOps_wf env halloc pre State.init init_wf
  have hctx0 : (setContext A (runOps env pre State.init)).gContext = A := rfl
  generalize setContext A (runOps env pre State.init) = s0 at hwf0 hctx0 ⊢
  have hsup : (t = .FrameBufferObjectARB ∨ t = .FrameBufferObjectEXT) ∨
      ∃ code, t = .other code := by
    cases t with
    | FrameBufferObjectARB => exact Or.inl (Or.inl rfl)
    | FrameBufferObjectEXT => exact Or.inl (Or.inr rfl)
    | other code => exact Or.inr ⟨code, rfl⟩
  rcases hsup with ht | ⟨code, rfl⟩
  · obtain ⟨hx0, hx1, hx2⟩ := getOffscreenBuffer_cached env hnew t ht s0
    have hwf1 := getOffscreenBuffer_wf env halloc t s0 hwf0
    rw [hctx0] at hx1 hx2
    generalize getOffscreenBuffer env t s0 = r1 at hx0 hx1 hx2 hwf1 ⊢
    have hwf2 : (setContext B r1.2).WF := hwf1
    obtain ⟨f1, f2⟩ := runOps_lookup_frame env ops hops (setContext B r1.2)
    have hwf3 := runOps_wf env halloc ops _ hwf2
    have hbA : (runOps env ops (setContext B r1.2)).buffer A t = r1.1 := by
      rw [f2 A t hAB]; exact hx2
    generalize runOps env ops (setContext B r1.2) = s3 at f1 hwf3 hbA ⊢
    have f1' : s3.gContext = B := f1
    constructor
    · have hhit : (setContext A s3).buffer (setContext A s3).gContext t ≠ 0 := by
        show s3.buffer A t ≠ 0
        rw [hbA]; exact hx0
      rw [getOffscreenBuffer_hit env t _ hhit]
      exact hbA
    · intro _
      obtain ⟨y0, _, y2⟩ := getOffscreenBuffer_cached env hnew t ht s3
      have hwf4 := getOffscreenBuffer_wf env halloc t s3 hwf3
      have hfr := (run_lookup_frame env (.getOffscreenBuffer t) rfl s3).2 A t
        (by rw [f1']; exact hAB)
      have hfr' : (getOffscreenBuffer env t s3).2.buffer A t = r1.1 := by
        rw [← hbA]; exact hfr
      rw [f1'] at y2
      have hd := hwf4.2 B t A t (Ne.symm hAB) (by rw [y2]; exact y0)
      rw [y2, hfr'] at hd
      exact hd
  · exact ⟨rfl, fun h => absurd rfl h⟩

/-- The sample allocator returns an address above every live one. -/
theorem sample_allocatorOK (arb nv : Bool) (conv : Nat) :
    (Env.sample arb nv conv).AllocatorOK := by
  intro live
  have hle : ∀ q ∈ live, q ≤ live.foldr max 0 := by
    induction live with
    | nil => intro q hq; cases hq
    | cons a l ih =>
      intro q hq
      rcases List.mem_cons.mp hq with h | h
      · subst h; exact Nat.le_max_left _ _
      · exact Nat.le_trans (ih q h) (Nat.le_max_right _ _)
  refine ⟨Nat.succ_ne_zero _, fun hmem => ?_⟩
  have h2 : live.foldr max 0 + 1 ≤ live.foldr max 0 := hle _ hmem
  exact Nat.not_succ_le_self _ h2

/-- C10 witness: contexts 0 and 1, the ARB buffer type, after some earlier
activity in context 5. -/
theorem getOffscreenBuffer_per_context_witness :
    (getOffscreenBuffer (Env.sample false false 1) .FrameBufferObjectARB
        (setContext 0 (runOps (Env.sample false false 1)
          [.getOffscreenBuffer .FrameBufferObjectARB,
           .getOffscreenBuffer .FrameBufferObjectEXT,
           .getShaderProgram ⟨100, []⟩ ⟨200, []⟩]
          (setContext 1
            (getOffscreenBuffer (Env.sample false false 1) .FrameBufferObjectARB
              (setContext 0 (runOps (Env.sample false false 1)
                [.setContext 5, .getOffscreenBuffer .FrameBufferObjectARB, .freeResources]
                State.init))).2)))).1 =
      (getOffscreenBuffer (Env.sample false false 1) .FrameBufferObjectARB
        (setContext 0 (runOps (Env.sample false false 1)
          [.setContext 5, .getOffscreenBuffer .FrameBufferObjectARB, .freeResources]
          State.init))).1 ∧
    ((getOffscreenBuffer (Env.sample false false 1) .FrameBufferObjectARB
        (setContext 0 (runOps (Env.sample false false 1)
          [.setContext 5, .getOffscreenBuffer .FrameBufferObjectARB, .freeResources]
          State.init))).1 ≠ 0 →
      (getOffscreenBuffer (Env.sample false false 1) .FrameBufferObjectARB
        (runOps (Env.sample false false 1)
          [.getOffscreenBuffer .FrameBufferObjectARB,
           .getOffscreenBuffer .FrameBufferObjectEXT,
           .getShaderProgram ⟨100, []⟩ ⟨200, []⟩]
          (setContext 1
            (getOffscreenBuffer (Env.sample false false 1) .FrameBufferObjectARB
              (setContext 0 (runOps (Env.sample false false 1)
                [.setContext 5, .getOffscreenBuffer .FrameBufferObjectARB, .freeResources]
                State.init))).2))).1 ≠
      (getOffscreenBuffer (Env.sample false false 1) .FrameBufferObjectARB
        (setContext 0 (runOps (Env.sample false false 1)
          [.setContext 5, .getOffscreenBuffer .FrameBufferObjectARB, .freeResources]
          State.init))).1) :=
  getOffscreenBuffer_per_context (Env.sample false false 1) (sample_allocatorOK false false 1)
    [.setContext 5, .getOffscreenBuffer .FrameBufferObjectARB, .freeResources] 0 1 (by decide)
    .FrameBufferObjectARB
    [.getOffscreenBuffer .FrameBufferObjectARB, .getOffscreenBuffer .FrameBufferObjectEXT,
     .getShaderProgram ⟨100, []⟩ ⟨200, []⟩] (by decide)

/-! ### C13 -/

/-- C13: when the record map has no entry for the active context id,
`freeResources` returns the state it was given (no native call, the record map
as it was, no record inserted, the active id unchanged).  After any
`freeResources` the active context has no record, so a second call in a row
changes nothing more. -/
theorem freeResources_without_record (s : State) :
    (mapFind s.gContextDataMap (getContext s) = none → freeResources s = s) ∧
    mapFind (freeResources s).gContextDataMap (getContext (freeResources s)) = none ∧
    freeResources (freeResources s) = freeResources s := by
  have hnone : mapFind (freeResources s).gContextDataMap (freeResources s).gContext = none := by
    cases hf : mapFind s.gContextDataMap s.gContext with
    | none => rw [freeResources_none s hf]; exact hf
    | some cd =>
      rw [freeResources_some s cd hf]
      obtain ⟨_, h2, h3, _⟩ := deleteProgramsLoop_trace cd.idFP
        (deleteFrameBufferObjectExt cd.fEXT (deleteFrameBufferObject cd.fARB s))
      have hctx : (deleteFrameBufferObjectExt cd.fEXT
          (deleteFrameBufferObject cd.fARB s)).gContext = s.gContext := by
        unfold deleteFrameBufferObjectExt deleteFrameBufferObject
        by_cases h1 : cd.fARB = 0 <;> by_cases h2 : cd.fEXT = 0 <;> simp [h1, h2, State.emit]
      simp only [h2, hctx, mapFind_mapErase, if_true]
  exact ⟨fun hf => freeResources_none s hf, hnone, freeResources_none _ hnone⟩

/-! ### C14 -/

/-- C14: `freeResources` keeps the active context id and the record of every
other context id, and every call it issues is the deletion of a buffer of the
active context's record or `glDeleteProgramsARB` of a handle stored in the
active context's `idFP`; so no delete call is issued for a handle that only
another context's record holds. -/
theorem freeResources_only_active_context (s : State) :
    getContext (freeResources s) = getContext s ∧
    (∀ B, B ≠ getContext s →
      mapFind (freeResources s).gContextDataMap B = mapFind s.gContextDataMap B) ∧
    (∀ e ∈ (freeResources s).trace.drop s.trace.length,
      ∃ cd, mapFind s.gContextDataMap (getContext s) = some cd ∧
        (e = .deleteFrameBufferObject cd.fARB ∨ e = .deleteFrameBufferObjectExt cd.fEXT ∨
          ∃ entry ∈ cd.idFP, e = .glDeleteProgramsARB entry.2)) := by
  refine ⟨(freeResources_buffers s).1, ?_, ?_⟩
  · intro B hB
    have hB' : B ≠ s.gContext := hB
    cases hf : mapFind s.gContextDataMap s.gContext with
    | none => rw [freeResources_none s hf]
    | some cd =>
      rw [freeResources_some s cd hf]
      obtain ⟨_, _, h3, _⟩ := deleteProgramsLoop_trace cd.idFP
        (deleteFrameBufferObjectExt cd.fEXT (deleteFrameBufferObject cd.fARB s))
      have hmap : (deleteFrameBufferObjectExt cd.fEXT
          (deleteFrameBufferObject cd.fARB s)).gContextDataMap = s.gContextDataMap := by
        unfold deleteFrameBufferObjectExt deleteFrameBufferObject
        by_cases h1 : cd.fARB = 0 <;> by_cases h2 : cd.fEXT = 0 <;> simp [h1, h2, State.emit]
      simp only [h3, hmap, mapFind_mapErase, hB', if_false]
  · intro e he
    cases hf : mapFind s.gContextDataMap s.gContext with
    | none =>
      rw [freeResources_none s hf] at he
      simp at he
    | some cd =>
      refine ⟨cd, hf, ?_⟩
      rw [freeResources_trace s cd hf, List.append_assoc, List.append_assoc,
        List.drop_left] at he
      rcases List.mem_append.mp he with h | h
      · by_cases h1 : cd.fARB = 0
        · simp [h1] at h
        · left; simpa [h1] using h
      · rcases List.mem_append.mp h with h | h
        · by_cases h2 : cd.fEXT = 0
          · simp [h2] at h
          · right; left; simpa [h2] using h
        · right; right
          obtain ⟨entry, hentry, rfl⟩ := List.mem_map.mp h
          exact ⟨entry, hentry, rfl⟩

/-! ### C17 -/

/-- Every call other than `setContext` keeps the active context id. -/
theorem run_gContext (env : Env) (op : Op) (hop : ∀ c, op ≠ Op.setContext c) (s : State) :
    (op.run env s).gContext = s.gContext := by
  cases op with
  | setContext c => exact absurd rfl (hop c)
  | freeResources => exact (freeResources_buffers s).1
  | getOffscreenBuffer t => exact (run_lookup_frame env (.getOffscreenBuffer t) rfl s).1
  | getARBProgram target prog len =>
    exact (run_lookup_frame env (.getARBProgram target prog len) rfl s).1
  | getShader target prog => exact (run_lookup_frame env (.getShader target prog) rfl s).1
  | getProgram v f => exact (run_lookup_frame env (.getProgram v f) rfl s).1
  | getShaderProgram v f => exact (run_lookup_frame env (.getShaderProgram v f) rfl s).1

/-- A sequence of calls without `setContext` keeps the active context id. -/
theorem runOps_gContext (env : Env) (ops : List Op)
    (hops : ∀ op ∈ ops, ∀ c, op ≠ Op.setContext c) (s : State) :
    (runOps env ops s).gContext = s.gContext := by
  induction ops generalizing s with
  | nil => rfl
  | cons op ops ih =>
    rw [runOps, ih (fun o ho => hops o (List.mem_cons_of_mem _ ho)),
      run_gContext env op (hops op (List.mem_cons_self _ _))]

/-- C17: `getContext` after `setContext(c)` returns `c`; in a fresh process,
and after any calls that are not `setContext`, it returns 0; and `setContext`
changes only the active id: the record map, the live objects and the trace
(no native call) are as before. -/
theorem setContext_getContext (env : Env) (c : Int) (s : State) :
    getContext (setContext c s) = c ∧
    getContext State.init = 0 ∧
    (∀ ops : List Op, (∀ op ∈ ops, ∀ c', op ≠ Op.setContext c') →
      getContext (runOps env ops State.init) = 0) ∧
    (setContext c s).gContextDataMap = s.gContextDataMap ∧
    (setContext c s).heap = s.heap ∧
    (setContext c s).trace = s.trace :=
  ⟨rfl, rfl, fun ops hops => runOps_gContext env ops hops State.init, rfl, rfl, rfl⟩

/-! ### C18 -/

/-- C18: on a non-empty list an automatic request adds exactly one renderer
call; the depth-complexity value it carries is the one
`chooseDepthComplexityAlgorithm` returned, which is never
`DepthComplexityAlgorithmUnused` and is `OcclusionQuery` only when
`haveHardwareOcclusionQueries()` is true. -/
theorem renderDispatch_automatic_consistent (env : Env) (primitives : List Primitive)
    (d : DepthComplexityAlgorithm) (s : State) (hne : primitives ≠ []) :
    rendererCalls (renderDispatch env primitives .Automatic d s).trace =
      rendererCalls s.trace ++
        [if env.getConvexity primitives ≥ 2 then
           Event.renderGoldfeather primitives (chooseDepthComplexityAlgorithm env primitives s).1
         else
           Event.renderSCS primitives (chooseDepthComplexityAlgorithm env primitives s).1] ∧
    (chooseDepthComplexityAlgorithm env primitives s).1 ≠ .DepthComplexityAlgorithmUnused ∧
    ((chooseDepthComplexityAlgorithm env primitives s).1 = .OcclusionQuery →
      (haveHardwareOcclusionQueries env s).1 = true) := by
  refine ⟨renderDispatch_automatic_rendererCalls env primitives d s hne, ?_, ?_⟩
  · rw [chooseDepthComplexityAlgorithm_fst]
    split
    · simp
    · split <;> simp
  · rw [chooseDepthComplexityAlgorithm_fst]
    split
    · simp
    · split
      · rename_i h; exact fun _ => h.1
      · simp

/-- C18 witness: 25 primitives with hardware occlusion queries, so that the
selector picks `OcclusionQuery`. -/
theorem renderDispatch_automatic_consistent_witness :
    rendererCalls (renderDispatch (Env.sample true false 1) (List.replicate 25 0) .Automatic
        .DepthComplexityAlgorithmUnused State.init).trace =
      rendererCalls State.init.trace ++
        [if (Env.sample true false 1).getConvexity (List.replicate 25 0) ≥ 2 then
           Event.renderGoldfeather (List.replicate 25 0)
            (chooseDepthComplexityAlgorithm (Env.sample true false 1) (List.replicate 25 0)
              State.init).1
         else
           Event.renderSCS (List.replicate 25 0)
            (chooseDepthComplexityAlgorithm (Env.sample true false 1) (List.replicate 25 0)
              State.init).1] ∧
    (chooseDepthComplexityAlgorithm (Env.sample true false 1) (List.replicate 25 0)
      State.init).1 ≠ .DepthComplexityAlgorithmUnused ∧
    ((chooseDepthComplexityAlgorithm (Env.sample true false 1) (List.replicate 25 0)
        State.init).1 = .OcclusionQuery →
      (haveHardwareOcclusionQueries (Env.sample true false 1) State.init).1 = true) :=
  renderDispatch_automatic_consistent (Env.sample true false 1) (List.replicate 25 0)
    .DepthComplexityAlgorithmUnused State.init (by decide)

/-! ### C20 -/

theorem mapErase_cons {K V : Type} [DecidableEq K] (a : K) (b : V) (m : List (K × V)) (k : K) :
    mapErase ((a, b) :: m) k = if a = k then mapErase m k else (a, b) :: mapErase m k := by
  unfold mapErase
  by_cases hak : a = k <;> simp [List.filter_cons, hak]

theorem mapErase_of_find_none {K V : Type} [DecidableEq K] (m : List (K × V)) (k : K)
    (h : mapFind m k = none) : mapErase m k = m := by
  induction m with
  | nil => rfl
  | cons e m ih =>
    obtain ⟨a, b⟩ := e
    by_cases hak : a = k
    · simp [mapFind, hak] at h
    · have hm : mapFind m k = none := by simpa [mapFind, hak] using h
      rw [mapErase_cons, if_neg hak, ih hm]

theorem mapErase_mapInsertSorted {K V : Type} [DecidableEq K] (lt : K → K → Bool)
    (m : List (K × V)) (k : K) (v : V) :
    mapErase (mapInsertSorted lt m k v) k = mapErase m k := by
  induction m with
  | nil =>
    show mapErase [(k, v)] k = mapErase [] k
    rw [mapErase_cons, if_pos rfl]
  | cons e m ih =>
    obtain ⟨a, b⟩ := e
    by_cases hlt : lt k a = true
    · have : mapInsertSorted lt ((a, b) :: m) k v = (k, v) :: (a, b) :: m := by
        simp [mapInsertSorted, hlt]
      rw [this, mapErase_cons, if_pos rfl]
    · have : mapInsertSorted lt ((a, b) :: m) k v = (a, b) :: mapInsertSorted lt m k v := by
        simp [mapInsertSorted, hlt]
      rw [this, mapErase_cons, mapErase_cons, ih]

/-- C20: for an offscreen type other than the two frame buffer object kinds,
`getOffscreenBuffer` returns the null pointer and issues no call (no buffer
is constructed, the live objects are the same).  When the active context had
no record, the call has nevertheless inserted a default constructed (empty)
record for it; a following `freeResources` finds that record, issues no
delete call for it and removes it, which gives back the state before the
request.  When a record existed the request changes nothing. -/
theorem getOffscreenBuffer_unsupported_type (env : Env) (code : Int) (s : State) :
    (getOffscreenBuffer env (.other code) s).1 = 0 ∧
    (getOffscreenBuffer env (.other code) s).2.trace = s.trace ∧
    (getOffscreenBuffer env (.other code) s).2.heap = s.heap ∧
    (getOffscreenBuffer env (.other code) s).2.gContext = s.gContext ∧
    (mapFind s.gContextDataMap (getContext s) = none →
      mapFind (getOffscreenBuffer env (.other code) s).2.gContextDataMap (getContext s) =
        some ContextData.new ∧
      mapFind (freeResources (getOffscreenBuffer env (.other code) s).2).gContextDataMap
        (getContext s) = none ∧
      freeResources (getOffscreenBuffer env (.other code) s).2 = s) ∧
    (mapFind s.gContextDataMap (getContext s) ≠ none →
      (getOffscreenBuffer env (.other code) s).2 = s) := by
  have hr : getOffscreenBuffer env (.other code) s = (0, (contextDataRef s.gContext s).2) := rfl
  rw [hr]
  refine ⟨rfl, contextDataRef_trace _ _, contextDataRef_heap _ _, contextDataRef_gContext _ _,
    ?_, ?_⟩
  · intro hf
    have hf' : mapFind s.gContextDataMap s.gContext = none := hf
    have hcd : (contextDataRef s.gContext s).2 =
        { s with gContextDataMap :=
            mapInsertSorted ltInt s.gContextDataMap s.gContext ContextData.new } := by
      simp [contextDataRef, hf']
    have hfind : mapFind (contextDataRef s.gContext s).2.gContextDataMap s.gContext =
        some ContextData.new := by
      rw [hcd]; exact mapFind_mapInsertSorted_self ltInt _ _ _ hf'
    have hfree : freeResources (contextDataRef s.gContext s).2 = s := by
      have hctx : (contextDataRef s.gContext s).2.gContext = s.gContext :=
        contextDataRef_gContext _ _
      have hfind2 : mapFind (contextDataRef s.gContext s).2.gContextDataMap
          (contextDataRef s.gContext s).2.gContext = some ContextData.new := by
        rw [hctx]; exact hfind
      rw [freeResources_some _ _ hfind2, hcd]
      simp only [ContextData.new, deleteFrameBufferObject, deleteFrameBufferObjectExt,
        deleteProgramsLoop, if_true]
      rw [mapErase_mapInsertSorted, mapErase_of_find_none _ _ hf']
    refine ⟨hfind, ?_, hfree⟩
    rw [hfree]; exact hf'
  · intro hf
    have hf' : mapFind s.gContextDataMap s.gContext ≠ none := hf
    cases h : mapFind s.gContextDataMap s.gContext with
    | none => exact absurd h hf'
    | some cd => simp [contextDataRef, h]

/-! ### Shared lemmas on the shader and program caches -/

theorem mapFind_mapInsert {K V : Type} [DecidableEq K] (lt : K → K → Bool)
    (m : List (K × V)) (k k' : K) (v : V) :
    mapFind (mapInsert lt m k v) k' =
      match mapFind m k' with
      | some x => some x
      | none => if k' = k then some v else none := by
  unfold mapInsert
  cases hk : mapFind m k with
  | some x =>
    simp only [Option.isSome_some, if_true]
    cases hk' : mapFind m k' with
    | some y => rfl
    | none =>
      have : k' ≠ k := fun e => by rw [e, hk] at hk'; cases hk'
      simp [this]
  | none =>
    simp only [Option.isSome_none, Bool.false_eq_true, if_false]
    by_cases e : k' = k
    · subst e
      rw [mapFind_mapInsertSorted_self lt m k' v hk, hk]
      simp
    · rw [mapFind_mapInsertSorted_ne lt m k k' v e]
      cases mapFind m k' <;> simp [e]

/-- The records after a miss in the active context. -/
theorem withRecord_find (s : State) (cd : ContextData) (calls : List Event) (c : Int) :
    mapFind (s.withRecord cd calls).gContextDataMap c =
      if c = s.gContext then some cd else mapFind s.gContextDataMap c := by
  unfold State.withRecord
  simp only [mapFind_mapSet]
  by_cases h : c = s.gContext
  · subst h
    simp [contextDataRef_find]
  · simp [h, contextDataRef_find_ne _ _ _ h]

theorem contextDataRef_fst_shader (context : Int) (addr : Nat) (s : State) :
    mapFind (contextDataRef context s).1.idFP addr = s.shader context addr := by
  unfold State.shader
  rw [contextDataRef_fst]
  cases h : mapFind s.gContextDataMap context <;> rfl

theorem contextDataRef_fst_program (context : Int) (key : GLuint × GLuint) (s : State) :
    mapFind (contextDataRef context s).1.idShaderProg key = s.program context key := by
  unfold State.program
  rw [contextDataRef_fst]
  cases h : mapFind s.gContextDataMap context <;> rfl

/-- A record is found exactly as `gContextDataMap[context]` returns it. -/
theorem contextDataRef_of_find (context : Int) (s : State) (cd : ContextData)
    (h : mapFind s.gContextDataMap context = some cd) : contextDataRef context s = (cd, s) := by
  unfold contextDataRef; rw [h]

/-- A hit in `idFP`: `getShader` returns the cached handle and changes
nothing, whatever the stage. -/
theorem getShader_hit (env : Env) (target : GLenum) (prog : CStr) (s : State) (id : GLuint)
    (h : s.shader s.gContext prog.addr = some id) : getShader env target prog s = (id, s) := by
  unfold State.shader at h
  cases hf : mapFind s.gContextDataMap s.gContext with
  | none => rw [hf] at h; cases h
  | some cd =>
    rw [hf] at h
    have h' : mapFind cd.idFP prog.addr = some id := h
    simp [getShader, getContext, contextDataRef_of_find _ _ _ hf, h']

/-- A miss in `idFP`: `getShader` returns the name `glCreateShader` gave,
issues the calls of a compilation and stores the name under the pointer. -/
theorem getShader_miss (env : Env) (target : GLenum) (prog : CStr) (s : State)
    (h : s.shader s.gContext prog.addr = none) :
    getShader env target prog s =
      (env.glCreateShader s.trace target,
        s.withRecord
          { (contextDataRef s.gContext s).1 with
            idFP := mapInsert ltNat (contextDataRef s.gContext s).1.idFP prog.addr
              (env.glCreateShader s.trace target) }
          (compileCalls env s.trace target prog)) := by
  have hf : mapFind (contextDataRef s.gContext s).1.idFP prog.addr = none := by
    rw [contextDataRef_fst_shader]; exact h
  unfold getShader getContext
  simp only [hf, contextDataRef_trace]
  cases hok : env.compileStatus (((s.trace ++ [Event.glCreateShader target
      (env.glCreateShader s.trace target)]) ++ [Event.glShaderSource
      (env.glCreateShader s.trace target) prog]) ++ [Event.glCompileShader
      (env.glCreateShader s.trace target)]) (env.glCreateShader s.trace target) <;>
    simp [State.emit, State.setContextData, State.withRecord, compileCalls,
      contextDataRef_trace, contextDataRef_heap, contextDataRef_gContext, hok] <;>
    simp [List.append_assoc] at hok <;> simp [hok]

/-- A hit in `idFP`: `getARBProgram` returns the cached handle and changes
nothing. -/
theorem getARBProgram_hit (env : Env) (target : GLenum) (prog : CStr) (len : Int) (s : State)
    (id : GLuint) (h : s.shader s.gContext prog.addr = some id) :
    getARBProgram env target prog len s = (id, s) := by
  unfold State.shader at h
  cases hf : mapFind s.gContextDataMap s.gContext with
  | none => rw [hf] at h; cases h
  | some cd =>
    rw [hf] at h
    have h' : mapFind cd.idFP prog.addr = some id := h
    simp [getARBProgram, getContext, contextDataRef_of_find _ _ _ hf, h']

/-- A miss in `idFP`: `getARBProgram` returns the generated name, issues the
three ARB calls and stores the name under the pointer. -/
theorem getARBProgram_miss (env : Env) (target : GLenum) (prog : CStr) (len : Int) (s : State)
    (h : s.shader s.gContext prog.addr = none) :
    getARBProgram env target prog len s =
      (env.glGenProgramsARB s.trace,
        s.withRecord
          { (contextDataRef s.gContext s).1 with
            idFP := mapInsert ltNat (contextDataRef s.gContext s).1.idFP prog.addr
              (env.glGenProgramsARB s.trace) }
          (arbCalls env s.trace target prog len)) := by
  have hf : mapFind (contextDataRef s.gContext s).1.idFP prog.addr = none := by
    rw [contextDataRef_fst_shader]; exact h
  unfold getARBProgram getContext
  simp [hf, State.emit, State.setContextData, State.withRecord, arbCalls,
    contextDataRef_trace, contextDataRef_heap, contextDataRef_gContext]

/-- A hit in `idShaderProg`: `getProgram` returns the cached handle and
changes nothing. -/
theorem getProgram_hit (env : Env) (vertId fragId : GLuint) (s : State) (id : GLuint)
    (h : s.program s.gContext (vertId, fragId) = some id) :
    getProgram env vertId fragId s = (id, s) := by
  unfold State.program at h
  cases hf : mapFind s.gContextDataMap s.gContext with
  | none => rw [hf] at h; cases h
  | some cd =>
    rw [hf] at h
    have h' : mapFind cd.idShaderProg (vertId, fragId) = some id := h
    simp [getProgram, getContext, contextDataRef_of_find _ _ _ hf, h']

/-- A miss in `idShaderProg`: `getProgram` returns the name `glCreateProgram`
gave, issues the calls of a link and stores the name under the pair. -/
theorem getProgram_miss (env : Env) (vertId fragId : GLuint) (s : State)
    (h : s.program s.gContext (vertId, fragId) = none) :
    getProgram env vertId fragId s =
      (env.glCreateProgram s.trace,
        s.withRecord
          { (contextDataRef s.gContext s).1 with
            idShaderProg := mapInsert ltPair (contextDataRef s.gContext s).1.idShaderProg
              (vertId, fragId) (env.glCreateProgram s.trace) }
          (linkCalls env s.trace vertId fragId)) := by
  have hf : mapFind (contextDataRef s.gContext s).1.idShaderProg (vertId, fragId) = none := by
    rw [contextDataRef_fst_program]; exact h
  unfold getProgram getContext
  simp only [hf, contextDataRef_trace]
  cases hok : env.linkStatus ((((s.trace ++ [Event.glCreateProgram
      (env.glCreateProgram s.trace)]) ++ [Event.glAttachShader
      (env.glCreateProgram s.trace) vertId]) ++ [Event.glAttachShader
      (env.glCreateProgram s.trace) fragId]) ++ [Event.glLinkProgram
      (env.glCreateProgram s.trace)]) (env.glCreateProgram s.trace) <;>
    simp [State.emit, State.setContextData, State.withRecord, linkCalls,
      contextDataRef_trace, contextDataRef_heap, contextDataRef_gContext, hok] <;>
    simp [List.append_assoc] at hok <;> simp [hok]

/-- What the shader cache holds after a miss in the active context that
stored `id` under `addr`. -/
theorem withRecord_shader_insert (s : State) (addr : Nat) (id : GLuint) (calls : List Event)
    (c : Int) (a : Nat) (h : s.shader s.gContext addr = none) :
    (s.withRecord
        { (contextDataRef s.gContext s).1 with
          idFP := mapInsert ltNat (contextDataRef s.gContext s).1.idFP addr id } calls).shader c a =
      if c = s.gContext ∧ a = addr then some id else s.shader c a := by
  unfold State.shader at h ⊢
  rw [withRecord_find]
  by_cases hc : c = s.gContext
  · subst hc
    simp only [if_true, true_and, mapFind_mapInsert]
    have hfst := contextDataRef_fst_shader s.gContext a s
    have hfst2 := contextDataRef_fst_shader s.gContext addr s
    unfold State.shader at hfst hfst2
    rw [hfst]
    by_cases ha : a = addr
    · subst ha
      rw [h]
    · simp only [ha, if_false]
      cases mapFind s.gContextDataMap s.gContext with
      | none => rfl
      | some cd => simp only []; cases mapFind cd.idFP a <;> rfl
  · simp [hc]

/-- A miss that stores a shader keeps the program cache. -/
theorem withRecord_idFP_program (s : State) (m : List (Nat × GLuint)) (calls : List Event)
    (c : Int) (k : GLuint × GLuint) :
    (s.withRecord { (contextDataRef s.gContext s).1 with idFP := m } calls).program c k =
      s.program c k := by
  unfold State.program
  rw [withRecord_find]
  by_cases hc : c = s.gContext
  · subst hc
    have hfst := contextDataRef_fst_program s.gContext k s
    unfold State.program at hfst
    simpa using hfst
  · simp [hc]

/-- What the program cache holds after a miss in the active context that
stored `id` under `key`. -/
theorem withRecord_program_insert (s : State) (key : GLuint × GLuint) (id : GLuint)
    (calls : List Event) (c : Int) (k : GLuint × GLuint)
    (h : s.program s.gContext key = none) :
    (s.withRecord
        { (contextDataRef s.gContext s).1 with
          idShaderProg := mapInsert ltPair (contextDataRef s.gContext s).1.idShaderProg key id }
        calls).program c k =
      if c = s.gContext ∧ k = key then some id else s.program c k := by
  unfold State.program at h ⊢
  rw [withRecord_find]
  by_cases hc : c = s.gContext
  · subst hc
    simp only [if_true, true_and, mapFind_mapInsert]
    have hfst := contextDataRef_fst_program s.gContext k s
    unfold State.program at hfst
    rw [hfst]
    by_cases ha : k = key
    · subst ha
      rw [h]
    · simp only [ha, if_false]
      cases mapFind s.gContextDataMap s.gContext with
      | none => rfl
      | some cd => simp only []; cases mapFind cd.idShaderProg k <;> rfl
  · simp [hc]

/-- A miss that stores a program keeps the shader cache. -/
theorem withRecord_idShaderProg_shader (s : State) (m : List ((GLuint × GLuint) × GLuint))
    (calls : List Event) (c : Int) (a : Nat) :
    (s.withRecord { (contextDataRef s.gContext s).1 with idShaderProg := m } calls).shader c a =
      s.shader c a := by
  unfold State.shader
  rw [withRecord_find]
  by_cases hc : c = s.gContext
  · subst hc
    have hfst := contextDataRef_fst_shader s.gContext a s
    unfold State.shader at hfst
    simpa using hfst
  · simp [hc]

/-- The shader cache after `getShader`: the pointer maps to the returned
handle in the active context, every other entry is as before. -/
theorem getShader_shader (env : Env) (target : GLenum) (prog : CStr) (s : State)
    (c : Int) (a : Nat) :
    (getShader env target prog s).2.shader c a =
      if c = s.gContext ∧ a = prog.addr then some (getShader env target prog s).1
      else s.shader c a := by
  cases h : s.shader s.gContext prog.addr with
  | some id =>
    rw [getShader_hit env target prog s id h]
    by_cases hc : c = s.gContext ∧ a = prog.addr
    · obtain ⟨rfl, rfl⟩ := hc; simp [h]
    · simp [hc]
  | none =>
    rw [getShader_miss env target prog s h]
    exact withRecord_shader_insert s prog.addr _ _ c a h

/-- The request `getShader` keeps the program cache. -/
theorem getShader_program (env : Env) (target : GLenum) (prog : CStr) (s : State)
    (c : Int) (k : GLuint × GLuint) :
    (getShader env target prog s).2.program c k = s.program c k := by
  cases h : s.shader s.gContext prog.addr with
  | some id => rw [getShader_hit env target prog s id h]
  | none =>
    rw [getShader_miss env target prog s h]
    exact withRecord_idFP_program s _ _ c k

/-- The shader cache after `getARBProgram`. -/
theorem getARBProgram_shader (env : Env) (target : GLenum) (prog : CStr) (len : Int)
    (s : State) (c : Int) (a : Nat) :
    (getARBProgram env target prog len s).2.shader c a =
      if c = s.gContext ∧ a = prog.addr then some (getARBProgram env target prog len s).1
      else s.shader c a := by
  cases h : s.shader s.gContext prog.addr with
  | some id =>
    rw [getARBProgram_hit env target prog len s id h]
    by_cases hc : c = s.gContext ∧ a = prog.addr
    · obtain ⟨rfl, rfl⟩ := hc; simp [h]
    · simp [hc]
  | none =>
    rw [getARBProgram_miss env target prog len s h]
    exact withRecord_shader_insert s prog.addr _ _ c a h

/-- The request `getARBProgram` keeps the program cache. -/
theorem getARBProgram_program (env : Env) (target : GLenum) (prog : CStr) (len : Int)
    (s : State) (c : Int) (k : GLuint × GLuint) :
    (getARBProgram env target prog len s).2.program c k = s.program c k := by
  cases h : s.shader s.gContext prog.addr with
  | some id => rw [getARBProgram_hit env target prog len s id h]
  | none =>
    rw [getARBProgram_miss env target prog len s h]
    exact withRecord_idFP_program s _ _ c k

/-- The program cache after `getProgram`: the pair maps to the returned
handle in the active context, every other entry is as before. -/
theorem getProgram_program (env : Env) (vertId fragId : GLuint) (s : State)
    (c : Int) (k : GLuint × GLuint) :
    (getProgram env vertId fragId s).2.program c k =
      if c = s.gContext ∧ k = (vertId, fragId) then some (getProgram env vertId fragId s).1
      else s.program c k := by
  cases h : s.program s.gContext (vertId, fragId) with
  | some id =>
    rw [getProgram_hit env vertId fragId s id h]
    by_cases hc : c = s.gContext ∧ k = (vertId, fragId)
    · obtain ⟨rfl, rfl⟩ := hc; simp [h]
    · simp [hc]
  | none =>
    rw [getProgram_miss env vertId fragId s h]
    exact withRecord_program_insert s _ _ _ c k h

/-- The request `getProgram` keeps the shader cache. -/
theorem getProgram_shader (env : Env) (vertId fragId : GLuint) (s : State)
    (c : Int) (a : Nat) :
    (getProgram env vertId fragId s).2.shader c a = s.shader c a := by
  cases h : s.program s.gContext (vertId, fragId) with
  | some id => rw [getProgram_hit env vertId fragId s id h]
  | none =>
    rw [getProgram_miss env vertId fragId s h]
    exact withRecord_idShaderProg_shader s _ _ c a

/-- The request `getOffscreenBuffer` keeps the shader and program caches. -/
theorem getOffscreenBuffer_caches (env : Env) (t : OffscreenType) (s : State) (c : Int) :
    (∀ a, (getOffscreenBuffer env t s).2.shader c a = s.shader c a) ∧
    (∀ k, (getOffscreenBuffer env t s).2.program c k = s.program c k) := by
  have hfind := contextDataRef_find s.gContext s
  have hne := fun h => contextDataRef_find_ne s.gContext c s h
  have hfs := fun a => contextDataRef_fst_shader s.gContext a s
  have hfp := fun k => contextDataRef_fst_program s.gContext k s
  have hrec : ∀ cd' : ContextData,
      cd'.idFP = (contextDataRef s.gContext s).1.idFP →
      cd'.idShaderProg = (contextDataRef s.gContext s).1.idShaderProg →
      ∀ (hp : List Ptr) (tr : List Event),
      (∀ a, (State.setContextData
          { gContext := (contextDataRef s.gContext s).2.gContext
            gContextDataMap := (contextDataRef s.gContext s).2.gContextDataMap
            heap := hp, trace := tr } s.gContext cd').shader c a = s.shader c a) ∧
      (∀ k, (State.setContextData
          { gContext := (contextDataRef s.gContext s).2.gContext
            gContextDataMap := (contextDataRef s.gContext s).2.gContextDataMap
            heap := hp, trace := tr } s.gContext cd').program c k = s.program c k) := by
    intro cd' h1 h2 hp tr
    constructor
    · intro a
      unfold State.shader State.setContextData
      simp only [mapFind_mapSet]
      by_cases hc : c = s.gContext
      · subst hc
        have := hfs a
        unfold State.shader at this
        simp [hfind, h1, this]
      · simp [hc, hne hc]
    · intro k
      unfold State.program State.setContextData
      simp only [mapFind_mapSet]
      by_cases hc : c = s.gContext
      · subst hc
        have := hfp k
        unfold State.program at this
        simp [hfind, h2, this]
      · simp [hc, hne hc]
  have hbase : (∀ a, (contextDataRef s.gContext s).2.shader c a = s.shader c a) ∧
      (∀ k, (contextDataRef s.gContext s).2.program c k = s.program c k) := by
    constructor
    · intro a
      unfold State.shader
      by_cases hc : c = s.gContext
      · subst hc
        have := hfs a
        unfold State.shader at this
        rw [hfind]; exact this
      · rw [hne hc]
    · intro k
      unfold State.program
      by_cases hc : c = s.gContext
      · subst hc
        have := hfp k
        unfold State.program at this
        rw [hfind]; exact this
      · rw [hne hc]
  unfold getOffscreenBuffer getContext
  cases t with
  | FrameBufferObjectARB =>
    by_cases h0 : (contextDataRef s.gContext s).1.fARB = 0
    · simp only [h0, if_true]
      refine hrec _ ?_ ?_ _ _ <;> rfl
    · simp only [h0, if_false]
      exact hbase
  | FrameBufferObjectEXT =>
    by_cases h0 : (contextDataRef s.gContext s).1.fEXT = 0
    · simp only [h0, if_true]
      refine hrec _ ?_ ?_ _ _ <;> rfl
    · simp only [h0, if_false]
      exact hbase
  | other code => exact hbase

theorem countCompile_append (xs ys : List Event) :
    countCompile (xs ++ ys) = countCompile xs + countCompile ys := by
  simp [countCompile]

theorem countCreateShader_append (xs ys : List Event) :
    countCreateShader (xs ++ ys) = countCreateShader xs + countCreateShader ys := by
  simp [countCreateShader]

theorem countCreateProgram_append (xs ys : List Event) :
    countCreateProgram (xs ++ ys) = countCreateProgram xs + countCreateProgram ys := by
  simp [countCreateProgram]

theorem countLink_append (xs ys : List Event) :
    countLink (xs ++ ys) = countLink xs + countLink ys := by
  simp [countLink]

theorem eraseStatus_append (xs ys : List Event) :
    eraseStatus (xs ++ ys) = eraseStatus xs ++ eraseStatus ys := by
  simp [eraseStatus]

/-- A compilation creates one shader and compiles once. -/
theorem compileCalls_count (env : Env) (tr : List Event) (target : GLenum) (prog : CStr) :
    countCompile (compileCalls env tr target prog) = 1 ∧
    countCreateShader (compileCalls env tr target prog) = 1 := by
  unfold compileCalls
  split <;> simp [countCompile, countCreateShader]

/-- The calls of a compilation, up to the outcome of the status query. -/
theorem compileCalls_eraseStatus (env : Env) (tr : List Event) (target : GLenum) (prog : CStr) :
    eraseStatus (compileCalls env tr target prog) =
      [.glCreateShader target (env.glCreateShader tr target),
       .glShaderSource (env.glCreateShader tr target) prog,
       .glCompileShader (env.glCreateShader tr target),
       .glGetShaderiv (env.glCreateShader tr target) true] := by
  unfold compileCalls
  split <;> simp [eraseStatus]

/-- A link creates one program, attaches the two shaders and links once; what
follows the link is the status query and, on failure, the diagnostic. -/
theorem linkCalls_shape (env : Env) (tr : List Event) (vertId fragId : GLuint) :
    ∃ rest, linkCalls env tr vertId fragId =
        [.glCreateProgram (env.glCreateProgram tr),
         .glAttachShader (env.glCreateProgram tr) vertId,
         .glAttachShader (env.glCreateProgram tr) fragId,
         .glLinkProgram (env.glCreateProgram tr)] ++ rest ∧
      countCreateProgram rest = 0 ∧ countLink rest = 0 := by
  unfold linkCalls
  split
  · exact ⟨_, by simp only [List.cons_append, List.nil_append, List.append_nil]; rfl,
      by simp [countCreateProgram], by simp [countLink]⟩
  · exact ⟨_, by simp only [List.cons_append, List.nil_append]; rfl,
      by simp [countCreateProgram], by simp [countLink]⟩

/-- The calls of a link, up to the outcome of the status query. -/
theorem linkCalls_eraseStatus (env : Env) (tr : List Event) (vertId fragId : GLuint) :
    eraseStatus (linkCalls env tr vertId fragId) =
      [.glCreateProgram (env.glCreateProgram tr),
       .glAttachShader (env.glCreateProgram tr) vertId,
       .glAttachShader (env.glCreateProgram tr) fragId,
       .glLinkProgram (env.glCreateProgram tr),
       .glGetProgramiv (env.glCreateProgram tr) true] := by
  unfold linkCalls
  split <;> simp [eraseStatus]

/-- After `getShader` the pointer is cached for the active context, so the
same request, for any stage, returns the same handle and changes nothing. -/
theorem getShader_again (env : Env) (target target' : GLenum) (prog : CStr) (s : State) :
    getShader env target' prog (getShader env target prog s).2 =
      ((getShader env target prog s).1, (getShader env target prog s).2) := by
  have hctx : (getShader env target prog s).2.gContext = s.gContext :=
    (getShader_noBufferEffect env target prog s).1
  apply getShader_hit
  rw [hctx, getShader_shader]
  simp

/-- After `getARBProgram` the pointer is cached for the active context, so
`getShader` with the same pointer returns the ARB program name. -/
theorem getShader_after_getARBProgram (env : Env) (target target' : GLenum) (prog : CStr)
    (len : Int) (s : State) :
    getShader env target' prog (getARBProgram env target prog len s).2 =
      ((getARBProgram env target prog len s).1, (getARBProgram env target prog len s).2) := by
  have hctx : (getARBProgram env target prog len s).2.gContext = s.gContext :=
    (getARBProgram_noBufferEffect env target prog len s).1
  apply getShader_hit
  rw [hctx, getARBProgram_shader]
  simp

/-- After `getProgram` the pair is cached for the active context. -/
theorem getProgram_again (env : Env) (vertId fragId : GLuint) (s : State) :
    getProgram env vertId fragId (getProgram env vertId fragId s).2 =
      ((getProgram env vertId fragId s).1, (getProgram env vertId fragId s).2) := by
  have hctx : (getProgram env vertId fragId s).2.gContext = s.gContext :=
    (getProgram_noBufferEffect env vertId fragId s).1
  apply getProgram_hit
  rw [hctx, getProgram_program]
  simp

/-- A cached program stays cached over every call other than
`freeResources`. -/
theorem run_program_keep (env : Env) (op : Op) (hop : op ≠ Op.freeResources) (s : State)
    (c : Int) (k : GLuint × GLuint) (id : GLuint) (h : s.program c k = some id) :
    (op.run env s).program c k = some id := by
  have hget : ∀ (v f : GLuint) (s1 : State), s1.program c k = some id →
      (getProgram env v f s1).2.program c k = some id := by
    intro v f s1 h1
    rw [getProgram_program]
    by_cases hc : c = s1.gContext ∧ k = (v, f)
    · obtain ⟨rfl, rfl⟩ := hc
      rw [getProgram_hit env v f s1 id h1]
      simp
    · simp [hc, h1]
  cases op with
  | setContext c' => exact h
  | freeResources => exact absurd rfl hop
  | getOffscreenBuffer t =>
    show (getOffscreenBuffer env t s).2.program c k = some id
    rw [(getOffscreenBuffer_caches env t s c).2 k]; exact h
  | getARBProgram target prog len =>
    show (getARBProgram env target prog len s).2.program c k = some id
    rw [getARBProgram_program]; exact h
  | getShader target prog =>
    show (getShader env target prog s).2.program c k = some id
    rw [getShader_program]; exact h
  | getProgram v f => exact hget v f s h
  | getShaderProgram v f =>
    show (getShaderProgram env v f s).2.program c k = some id
    unfold getShaderProgram getVertexShader getFragmentShader
    apply hget
    rw [getShader_program, getShader_program]; exact h

/-- A cached program stays cached over every sequence of calls without
`freeResources`. -/
theorem runOps_program_keep (env : Env) (ops : List Op)
    (hops : ∀ op ∈ ops, op ≠ Op.freeResources) (s : State)
    (c : Int) (k : GLuint × GLuint) (id : GLuint) (h : s.program c k = some id) :
    (runOps env ops s).program c k = some id := by
  induction ops generalizing s with
  | nil => exact h
  | cons op ops ih =>
    exact ih (fun o ho => hops o (List.mem_cons_of_mem _ ho)) _
      (run_program_keep env op (hops op (List.mem_cons_self _ _)) s c k id h)

/-- After `freeResources` the active context has no record. -/
theorem freeResources_find_self (s : State) :
    mapFind (freeResources s).gContextDataMap s.gContext = none := by
  cases hf : mapFind s.gContextDataMap s.gContext with
  | none => rw [freeResources_none s hf]; exact hf
  | some cd =>
    rw [freeResources_some s cd hf]
    simp only [mapFind_mapErase, if_true]

/-! ### C11 -/

/-- C11: in any context and for any stage, a second `getShader` with the same
source pointer `p` returns the same handle and changes nothing (no native
call).  When `p` was not cached, the two calls together issue exactly one
`glCompileShader`.  A following request with another pointer `q` that was not
cached either, although it points to the same text, issues one more
`glCompileShader`: the cache is keyed by the pointer, not by the text. -/
theorem getShader_identity_keyed (env : Env) (target : GLenum) (p q : CStr) (s : State) :
    getShader env target p (getShader env target p s).2 =
      ((getShader env target p s).1, (getShader env target p s).2) ∧
    (s.shader (getContext s) p.addr = none →
      countCompile (getShader env target p (getShader env target p s).2).2.trace =
        countCompile s.trace + 1) ∧
    (s.shader (getContext s) p.addr = none → s.shader (getContext s) q.addr = none →
      q.addr ≠ p.addr → q.text = p.text →
      countCompile (getShader env target q (getShader env target p s).2).2.trace =
        countCompile (getShader env target p s).2.trace + 1 ∧
      countCompile (getShader env target q (getShader env target p s).2).2.trace =
        countCompile s.trace + 2) := by
  have hagain := getShader_again env target target p s
  have hone : s.shader s.gContext p.addr = none →
      countCompile (getShader env target p s).2.trace = countCompile s.trace + 1 := by
    intro hp
    rw [getShader_miss env target p s hp]
    show countCompile (s.trace ++ compileCalls env s.trace target p) = _
    rw [countCompile_append, (compileCalls_count env s.trace target p).1]
  refine ⟨hagain, fun hp => ?_, fun hp hq hpq _ => ?_⟩
  · rw [hagain]; exact hone hp
  · have hctx : (getShader env target p s).2.gContext = s.gContext :=
      (getShader_noBufferEffect env target p s).1
    have hq1 : (getShader env target p s).2.shader (getShader env target p s).2.gContext q.addr
        = none := by
      rw [hctx, getShader_shader]
      have : ¬ (s.gContext = s.gContext ∧ q.addr = p.addr) := fun h => hpq h.2
      rw [if_neg this]; exact hq
    have hstep : countCompile (getShader env target q (getShader env target p s).2).2.trace =
        countCompile (getShader env target p s).2.trace + 1 := by
      rw [getShader_miss env target q _ hq1]
      show countCompile ((getShader env target p s).2.trace ++ compileCalls env _ target q) = _
      rw [countCompile_append, (compileCalls_count env _ target q).1]
    exact ⟨hstep, by rw [hstep, hone hp]⟩

/-- C11 witness: a fresh process and two pointers to equal texts. -/
theorem getShader_identity_keyed_witness :
    (getShader (Env.sample false false 1) GL_VERTEX_SHADER ⟨100, [35, 118]⟩
        (getShader (Env.sample false false 1) GL_VERTEX_SHADER ⟨100, [35, 118]⟩
          State.init).2).1 =
      (getShader (Env.sample false false 1) GL_VERTEX_SHADER ⟨100, [35, 118]⟩ State.init).1 ∧
    countCompile (getShader (Env.sample false false 1) GL_VERTEX_SHADER ⟨100, [35, 118]⟩
        (getShader (Env.sample false false 1) GL_VERTEX_SHADER ⟨100, [35, 118]⟩
          State.init).2).2.trace = countCompile State.init.trace + 1 ∧
    countCompile (getShader (Env.sample false false 1) GL_VERTEX_SHADER ⟨200, [35, 118]⟩
        (getShader (Env.sample false false 1) GL_VERTEX_SHADER ⟨100, [35, 118]⟩
          State.init).2).2.trace = countCompile State.init.trace + 2 :=
  ⟨congrArg Prod.fst (getShader_identity_keyed (Env.sample false false 1) GL_VERTEX_SHADER
      ⟨100, [35, 118]⟩ ⟨200, [35, 118]⟩ State.init).1,
   (getShader_identity_keyed (Env.sample false false 1) GL_VERTEX_SHADER
      ⟨100, [35, 118]⟩ ⟨200, [35, 118]⟩ State.init).2.1 (by decide),
   ((getShader_identity_keyed (Env.sample false false 1) GL_VERTEX_SHADER
      ⟨100, [35, 118]⟩ ⟨200, [35, 118]⟩ State.init).2.2 (by decide) (by decide) (by decide)
      rfl).2⟩

/-! ### C12 -/

/-- The trace of a miss in `getProgram`. -/
theorem getProgram_miss_trace (env : Env) (vertId fragId : GLuint) (s : State)
    (h : s.program s.gContext (vertId, fragId) = none) :
    ∃ rest, (getProgram env vertId fragId s).2.trace =
        s.trace ++ [.glCreateProgram (getProgram env vertId fragId s).1,
          .glAttachShader (getProgram env vertId fragId s).1 vertId,
          .glAttachShader (getProgram env vertId fragId s).1 fragId,
          .glLinkProgram (getProgram env vertId fragId s).1] ++ rest ∧
      countCreateProgram rest = 0 ∧ countLink rest = 0 := by
  rw [getProgram_miss env vertId fragId s h]
  obtain ⟨rest, h1, h2, h3⟩ := linkCalls_shape env s.trace vertId fragId
  refine ⟨rest, ?_, h2, h3⟩
  show s.trace ++ linkCalls env s.trace vertId fragId = _
  rw [h1, List.append_assoc]

/-- C12: when the pair `(v, f)` is not cached, `getProgram(v, f)` issues one
`glCreateProgram`, attaches `v` and `f` to the new program and links it once.
Afterwards, over any calls that contain no `freeResources`, a later
`getProgram(v, f)` under the same context returns the same handle and changes
nothing (no native call).  A request for a different pair that is not cached,
in particular the swapped pair `(f, v)` when `v ≠ f`, is a miss: it creates
and links another program. -/
theorem getProgram_pair_keyed (env : Env) (v f v' f' : GLuint) (s : State) (ops : List Op) :
    (s.program (getContext s) (v, f) = none →
      ∃ rest, (getProgram env v f s).2.trace =
          s.trace ++ [.glCreateProgram (getProgram env v f s).1,
            .glAttachShader (getProgram env v f s).1 v,
            .glAttachShader (getProgram env v f s).1 f,
            .glLinkProgram (getProgram env v f s).1] ++ rest ∧
        countCreateProgram rest = 0 ∧ countLink rest = 0) ∧
    ((∀ op ∈ ops, op ≠ Op.freeResources) →
      getProgram env v f (setContext (getContext s) (runOps env ops (getProgram env v f s).2)) =
        ((getProgram env v f s).1,
          setContext (getContext s) (runOps env ops (getProgram env v f s).2))) ∧
    ((v', f') ≠ (v, f) → s.program (getContext s) (v', f') = none →
      ∃ rest, (getProgram env v' f' (getProgram env v f s).2).2.trace =
          (getProgram env v f s).2.trace ++
            [.glCreateProgram (getProgram env v' f' (getProgram env v f s).2).1,
             .glAttachShader (getProgram env v' f' (getProgram env v f s).2).1 v',
             .glAttachShader (getProgram env v' f' (getProgram env v f s).2).1 f',
             .glLinkProgram (getProgram env v' f' (getProgram env v f s).2).1] ++ rest ∧
        countCreateProgram rest = 0 ∧ countLink rest = 0) ∧
    (v ≠ f → s.program (getContext s) (f, v) = none →
      ∃ rest, (getProgram env f v (getProgram env v f s).2).2.trace =
          (getProgram env v f s).2.trace ++
            [.glCreateProgram (getProgram env f v (getProgram env v f s).2).1,
             .glAttachShader (getProgram env f v (getProgram env v f s).2).1 f,
             .glAttachShader (getProgram env f v (getProgram env v f s).2).1 v,
             .glLinkProgram (getProgram env f v (getProgram env v f s).2).1] ++ rest ∧
        countCreateProgram rest = 0 ∧ countLink rest = 0) := by
  have hctx : (getProgram env v f s).2.gContext = s.gContext :=
    (getProgram_noBufferEffect env v f s).1
  have hother : ∀ a b : GLuint, (a, b) ≠ (v, f) → s.program s.gContext (a, b) = none →
      ∃ rest, (getProgram env a b (getProgram env v f s).2).2.trace =
          (getProgram env v f s).2.trace ++
            [.glCreateProgram (getProgram env a b (getProgram env v f s).2).1,
             .glAttachShader (getProgram env a b (getProgram env v f s).2).1 a,
             .glAttachShader (getProgram env a b (getProgram env v f s).2).1 b,
             .glLinkProgram (getProgram env a b (getProgram env v f s).2).1] ++ rest ∧
        countCreateProgram rest = 0 ∧ countLink rest = 0 := by
    intro a b hne hnone
    apply getProgram_miss_trace
    rw [hctx, getProgram_program]
    have : ¬ (s.gContext = s.gContext ∧ (a, b) = (v, f)) := fun h => hne h.2
    rw [if_neg this]; exact hnone
  refine ⟨fun h => getProgram_miss_trace env v f s h, fun hops => ?_,
    fun hne hnone => hother v' f' hne hnone, fun hvf hnone => hother f v ?_ hnone⟩
  · apply getProgram_hit
    show (runOps env ops (getProgram env v f s).2).program s.gContext (v, f) = _
    apply runOps_program_keep env ops hops
    rw [getProgram_program]
    simp
  · intro h
    exact hvf (congrArg Prod.snd h)

/-- C12 witness: a fresh process; between the two requests the application
switches to context 3, links the same pair there and comes back. -/
theorem getProgram_pair_keyed_witness :
    getProgram (Env.sample false false 1) 1 5
        (setContext 0 (runOps (Env.sample false false 1)
          [.setContext 3, .getProgram 1 5, .getOffscreenBuffer .FrameBufferObjectARB]
          (getProgram (Env.sample false false 1) 1 5 State.init).2)) =
      ((getProgram (Env.sample false false 1) 1 5 State.init).1,
        setContext 0 (runOps (Env.sample false false 1)
          [.setContext 3, .getProgram 1 5, .getOffscreenBuffer .FrameBufferObjectARB]
          (getProgram (Env.sample false false 1) 1 5 State.init).2)) ∧
    ∃ rest, (getProgram (Env.sample false false 1) 5 1
          (getProgram (Env.sample false false 1) 1 5 State.init).2).2.trace =
        (getProgram (Env.sample false false 1) 1 5 State.init).2.trace ++
          [.glCreateProgram (getProgram (Env.sample false false 1) 5 1
              (getProgram (Env.sample false false 1) 1 5 State.init).2).1,
           .glAttachShader (getProgram (Env.sample false false 1) 5 1
              (getProgram (Env.sample false false 1) 1 5 State.init).2).1 5,
           .glAttachShader (getProgram (Env.sample false false 1) 5 1
              (getProgram (Env.sample false false 1) 1 5 State.init).2).1 1,
           .glLinkProgram (getProgram (Env.sample false false 1) 5 1
              (getProgram (Env.sample false false 1) 1 5 State.init).2).1] ++ rest ∧
      countCreateProgram rest = 0 ∧ countLink rest = 0 :=
  ⟨(getProgram_pair_keyed (Env.sample false false 1) 1 5 5 1 State.init
      [.setContext 3, .getProgram 1 5, .getOffscreenBuffer .FrameBufferObjectARB]).2.1
      (by decide),
   (getProgram_pair_keyed (Env.sample false false 1) 1 5 5 1 State.init
      [.setContext 3, .getProgram 1 5, .getOffscreenBuffer .FrameBufferObjectARB]).2.2.2
      (by decide) (by decide)⟩

/-! ### C15 -/

/-- C15: after `freeResources`, whatever was cached before (in particular a
buffer of the type and a shader for the pointer), the first
`getOffscreenBuffer` of a supported type constructs one buffer and returns
the address this `new` gave, and the first `getShader` issues one
`glCreateShader` and one `glCompileShader` and returns the name this
`glCreateShader` gave; neither reads the value that was cached before the
teardown.  The same holds for the `getShader` that follows the new
`getOffscreenBuffer`. -/
theorem lookups_after_freeResources (env : Env) (t : OffscreenType)
    (ht : t = .FrameBufferObjectARB ∨ t = .FrameBufferObjectEXT)
    (target : GLenum) (p : CStr) (s : State) :
    (getOffscreenBuffer env t (freeResources s)).1 = env.operatorNew (freeResources s).heap ∧
    countNew t ((getOffscreenBuffer env t (freeResources s)).2.trace.drop
      (freeResources s).trace.length) = 1 ∧
    (getShader env target p (freeResources s)).1 =
      env.glCreateShader (freeResources s).trace target ∧
    countCreateShader (getShader env target p (freeResources s)).2.trace =
      countCreateShader (freeResources s).trace + 1 ∧
    countCompile (getShader env target p (freeResources s)).2.trace =
      countCompile (freeResources s).trace + 1 ∧
    (getShader env target p (getOffscreenBuffer env t (freeResources s)).2).1 =
      env.glCreateShader (getOffscreenBuffer env t (freeResources s)).2.trace target ∧
    countCompile (getShader env target p (getOffscreenBuffer env t (freeResources s)).2).2.trace =
      countCompile (getOffscreenBuffer env t (freeResources s)).2.trace + 1 := by
  obtain ⟨hctx, hbuf, _⟩ := freeResources_buffers s
  have hfind : mapFind (freeResources s).gContextDataMap (freeResources s).gContext = none := by
    rw [hctx]; exact freeResources_find_self s
  have hb0 : (freeResources s).buffer (freeResources s).gContext t = 0 := by
    rw [hctx, hbuf]; simp
  have hs0 : (freeResources s).shader (freeResources s).gContext p.addr = none := by
    unfold State.shader; rw [hfind]
  obtain ⟨m1, m2, _, ⟨e, me1, me2⟩, _⟩ := getOffscreenBuffer_miss env t (freeResources s) ht hb0
  have hs1 : (getOffscreenBuffer env t (freeResources s)).2.shader
      (getOffscreenBuffer env t (freeResources s)).2.gContext p.addr = none := by
    rw [m2, (getOffscreenBuffer_caches env t (freeResources s) _).1]; exact hs0
  have hmiss : ∀ s1 : State, s1.shader s1.gContext p.addr = none →
      (getShader env target p s1).1 = env.glCreateShader s1.trace target ∧
      countCreateShader (getShader env target p s1).2.trace = countCreateShader s1.trace + 1 ∧
      countCompile (getShader env target p s1).2.trace = countCompile s1.trace + 1 := by
    intro s1 h1
    rw [getShader_miss env target p s1 h1]
    refine ⟨rfl, ?_, ?_⟩
    · show countCreateShader (s1.trace ++ compileCalls env s1.trace target p) = _
      rw [countCreateShader_append, (compileCalls_count env s1.trace target p).2]
    · show countCompile (s1.trace ++ compileCalls env s1.trace target p) = _
      rw [countCompile_append, (compileCalls_count env s1.trace target p).1]
  obtain ⟨a1, a2, a3⟩ := hmiss _ hs0
  obtain ⟨b1, _, b3⟩ := hmiss _ hs1
  refine ⟨m1, ?_, a1, a2, a3, b1, b3⟩
  rw [me1, List.drop_left, me2]; simp

/-- C15 witness: context 0 served a buffer and a shader, then is torn down. -/
theorem lookups_after_freeResources_witness :
    (getOffscreenBuffer (Env.sample false false 1) .FrameBufferObjectARB
      (freeResources (runOps (Env.sample false false 1)
        [.getOffscreenBuffer .FrameBufferObjectARB, .getShader GL_VERTEX_SHADER ⟨100, []⟩]
        State.init))).1 =
      (Env.sample false false 1).operatorNew (freeResources (runOps (Env.sample false false 1)
        [.getOffscreenBuffer .FrameBufferObjectARB, .getShader GL_VERTEX_SHADER ⟨100, []⟩]
        State.init)).heap ∧
    countCompile (getShader (Env.sample false false 1) GL_VERTEX_SHADER ⟨100, []⟩
      (freeResources (runOps (Env.sample false false 1)
        [.getOffscreenBuffer .FrameBufferObjectARB, .getShader GL_VERTEX_SHADER ⟨100, []⟩]
        State.init))).2.trace =
      countCompile (freeResources (runOps (Env.sample false false 1)
        [.getOffscreenBuffer .FrameBufferObjectARB, .getShader GL_VERTEX_SHADER ⟨100, []⟩]
        State.init)).trace + 1 :=
  ⟨(lookups_after_freeResources (Env.sample false false 1) .FrameBufferObjectARB (Or.inl rfl)
      GL_VERTEX_SHADER ⟨100, []⟩ (runOps (Env.sample false false 1)
        [.getOffscreenBuffer .FrameBufferObjectARB, .getShader GL_VERTEX_SHADER ⟨100, []⟩]
        State.init)).1,
   (lookups_after_freeResources (Env.sample false false 1) .FrameBufferObjectARB (Or.inl rfl)
      GL_VERTEX_SHADER ⟨100, []⟩ (runOps (Env.sample false false 1)
        [.getOffscreenBuffer .FrameBufferObjectARB, .getShader GL_VERTEX_SHADER ⟨100, []⟩]
        State.init)).2.2.2.2.1⟩

/-! ### C16 -/

/-- C16: let the driver report any compile status, link status and info log
(`cs`, `ls`, `il`) instead of the ones of `env`.  Then `getShader` and
`getProgram` return the same handle, leave the same record map, the same live
objects and the same active id, and issue the same calls up to the outcome
of the status query and the diagnostic that follows a failure.  Whatever the
status was (in particular after a failure), repeating the request returns
the cached handle and changes nothing, so nothing is compiled or linked
again. -/
theorem compile_link_status_not_cached (env : Env) (cs ls : List Event → GLuint → Bool)
    (il : List Event → GLuint → List Nat) (target : GLenum) (p : CStr) (v f : GLuint)
    (s : State) :
    (getShader { env with compileStatus := cs, linkStatus := ls, infoLog := il } target p s).1 =
      (getShader env target p s).1 ∧
    (getShader { env with compileStatus := cs, linkStatus := ls, infoLog := il } target p
        s).2.gContextDataMap = (getShader env target p s).2.gContextDataMap ∧
    eraseStatus (getShader { env with compileStatus := cs, linkStatus := ls, infoLog := il }
        target p s).2.trace = eraseStatus (getShader env target p s).2.trace ∧
    (getProgram { env with compileStatus := cs, linkStatus := ls, infoLog := il } v f s).1 =
      (getProgram env v f s).1 ∧
    (getProgram { env with compileStatus := cs, linkStatus := ls, infoLog := il } v f
        s).2.gContextDataMap = (getProgram env v f s).2.gContextDataMap ∧
    eraseStatus (getProgram { env with compileStatus := cs, linkStatus := ls, infoLog := il }
        v f s).2.trace = eraseStatus (getProgram env v f s).2.trace ∧
    getShader { env with compileStatus := cs, linkStatus := ls, infoLog := il } target p
        (getShader { env with compileStatus := cs, linkStatus := ls, infoLog := il }
          target p s).2 =
      ((getShader { env with compileStatus := cs, linkStatus := ls, infoLog := il }
          target p s).1,
       (getShader { env with compileStatus := cs, linkStatus := ls, infoLog := il }
          target p s).2) ∧
    getProgram { env with compileStatus := cs, linkStatus := ls, infoLog := il } v f
        (getProgram { env with compileStatus := cs, linkStatus := ls, infoLog := il }
          v f s).2 =
      ((getProgram { env with compileStatus := cs, linkStatus := ls, infoLog := il } v f s).1,
       (getProgram { env with compileStatus := cs, linkStatus := ls, infoLog := il }
          v f s).2) := by
  refine ⟨?_, ?_, ?_, ?_, ?_, ?_, getShader_again _ target target p s,
    getProgram_again _ v f s⟩
  · cases h : s.shader s.gContext p.addr with
    | some id => rw [getShader_hit _ target p s id h, getShader_hit env target p s id h]
    | none => rw [getShader_miss _ target p s h, getShader_miss env target p s h]
  · cases h : s.shader s.gContext p.addr with
    | some id => rw [getShader_hit _ target p s id h, getShader_hit env target p s id h]
    | none => rw [getShader_miss _ target p s h, getShader_miss env target p s h]; rfl
  · cases h : s.shader s.gContext p.addr with
    | some id => rw [getShader_hit _ target p s id h, getShader_hit env target p s id h]
    | none =>
      rw [getShader_miss _ target p s h, getShader_miss env target p s h]
      show eraseStatus (s.trace ++ compileCalls _ s.trace target p) =
        eraseStatus (s.trace ++ compileCalls env s.trace target p)
      rw [eraseStatus_append, eraseStatus_append, compileCalls_eraseStatus,
        compileCalls_eraseStatus]
  · cases h : s.program s.gContext (v, f) with
    | some id => rw [getProgram_hit _ v f s id h, getProgram_hit env v f s id h]
    | none => rw [getProgram_miss _ v f s h, getProgram_miss env v f s h]
  · cases h : s.program s.gContext (v, f) with
    | some id => rw [getProgram_hit _ v f s id h, getProgram_hit env v f s id h]
    | none => rw [getProgram_miss _ v f s h, getProgram_miss env v f s h]; rfl
  · cases h : s.program s.gContext (v, f) with
    | some id => rw [getProgram_hit _ v f s id h, getProgram_hit env v f s id h]
    | none =>
      rw [getProgram_miss _ v f s h, getProgram_miss env v f s h]
      show eraseStatus (s.trace ++ linkCalls _ s.trace v f) =
        eraseStatus (s.trace ++ linkCalls env s.trace v f)
      rw [eraseStatus_append, eraseStatus_append, linkCalls_eraseStatus,
        linkCalls_eraseStatus]

/-! ### C19 -/

/-- C19: within one context, `getFragmentShader(p)` after `getVertexShader(p)`
returns the vertex shader's handle and changes nothing (no shader is created
or compiled), so `getShaderProgram(p, p)` is `getProgram(h, h)` for that
handle `h` and, when the pair is not cached, attaches `h` twice; and
`getShader(stage, p)` after `getARBProgram(target, p, len)` returns the ARB
program name and changes nothing: `idFP` is keyed by the pointer alone. -/
theorem source_cache_ignores_stage (env : Env) (p : CStr) (stage target : GLenum)
    (len : Int) (s : State) :
    getFragmentShader env p (getVertexShader env p s).2 =
      ((getVertexShader env p s).1, (getVertexShader env p s).2) ∧
    getShaderProgram env p p s =
      getProgram env (getVertexShader env p s).1 (getVertexShader env p s).1
        (getVertexShader env p s).2 ∧
    ((getVertexShader env p s).2.program (getContext (getVertexShader env p s).2)
        ((getVertexShader env p s).1, (getVertexShader env p s).1) = none →
      ∃ rest, (getShaderProgram env p p s).2.trace =
          (getVertexShader env p s).2.trace ++
            [.glCreateProgram (getShaderProgram env p p s).1,
             .glAttachShader (getShaderProgram env p p s).1 (getVertexShader env p s).1,
             .glAttachShader (getShaderProgram env p p s).1 (getVertexShader env p s).1,
             .glLinkProgram (getShaderProgram env p p s).1] ++ rest ∧
        countCreateProgram rest = 0 ∧ countLink rest = 0) ∧
    getShader env stage p (getARBProgram env target p len s).2 =
      ((getARBProgram env target p len s).1, (getARBProgram env target p len s).2) := by
  have h1 : getFragmentShader env p (getVertexShader env p s).2 =
      ((getVertexShader env p s).1, (getVertexShader env p s).2) :=
    getShader_again env GL_VERTEX_SHADER GL_FRAGMENT_SHADER p s
  have h2 : getShaderProgram env p p s =
      getProgram env (getVertexShader env p s).1 (getVertexShader env p s).1
        (getVertexShader env p s).2 := by
    unfold getShaderProgram
    simp only [h1]
  refine ⟨h1, h2, fun hnone => ?_, getShader_after_getARBProgram env target stage p len s⟩
  rw [h2]
  exact getProgram_miss_trace env _ _ _ hnone

/-- C16 witness: a driver that reports every compilation as failed, against
one that reports success; the handle is the same, only the diagnostic
differs. -/
theorem compile_link_status_not_cached_witness :
    (getShader { Env.sample false false 1 with
        compileStatus := fun _ _ => false, linkStatus := fun _ _ => false,
        infoLog := fun _ _ => [69] } GL_VERTEX_SHADER ⟨100, []⟩ State.init).1 =
      (getShader (Env.sample false false 1) GL_VERTEX_SHADER ⟨100, []⟩ State.init).1 ∧
    diagnostics (getShader { Env.sample false false 1 with
        compileStatus := fun _ _ => false, linkStatus := fun _ _ => false,
        infoLog := fun _ _ => [69] } GL_VERTEX_SHADER ⟨100, []⟩ State.init).2.trace =
      [.cerrCompilationFailed GL_VERTEX_SHADER [69]] ∧
    diagnostics (getShader (Env.sample false false 1) GL_VERTEX_SHADER ⟨100, []⟩
      State.init).2.trace = [] :=
  ⟨(compile_link_status_not_cached (Env.sample false false 1) (fun _ _ => false)
      (fun _ _ => false) (fun _ _ => [69]) GL_VERTEX_SHADER ⟨100, []⟩ 1 5 State.init).1,
   by decide, by decide⟩

/-- C19 witness: in a fresh process `getShaderProgram(p, p)` compiles one
shader, named 1, and attaches it twice to the program it links. -/
theorem source_cache_ignores_stage_witness :
    (getVertexShader (Env.sample false false 1) ⟨100, []⟩ State.init).1 = 1 ∧
    ∃ rest, (getShaderProgram (Env.sample false false 1) ⟨100, []⟩ ⟨100, []⟩ State.init).2.trace =
        (getVertexShader (Env.sample false false 1) ⟨100, []⟩ State.init).2.trace ++
          [.glCreateProgram
              (getShaderProgram (Env.sample false false 1) ⟨100, []⟩ ⟨100, []⟩ State.init).1,
           .glAttachShader
              (getShaderProgram (Env.sample false false 1) ⟨100, []⟩ ⟨100, []⟩ State.init).1
              (getVertexShader (Env.sample false false 1) ⟨100, []⟩ State.init).1,
           .glAttachShader
              (getShaderProgram (Env.sample false false 1) ⟨100, []⟩ ⟨100, []⟩ State.init).1
              (getVertexShader (Env.sample false false 1) ⟨100, []⟩ State.init).1,
           .glLinkProgram
              (getShaderProgram (Env.sample false false 1) ⟨100, []⟩ ⟨100, []⟩ State.init).1]
          ++ rest ∧
      countCreateProgram rest = 0 ∧ countLink rest = 0 :=
  ⟨by decide,
   (source_cache_ignores_stage (Env.sample false false 1) ⟨100, []⟩ GL_VERTEX_SHADER
      GL_VERTEX_PROGRAM_ARB 0 State.init).2.2.1 (by decide)⟩

end OpenCSG
